import Mathlib

/-!
Verification development for the YieldPilot provider (`src/seller.js`).

The JavaScript source is shallowly embedded: JS values are modelled by the
inductive `JSVal` (finite numbers as exact rationals, `NaN` as its own
constructor), runtime exceptions by `Except JSErr`, and each source function
by a Lean definition of the same name.  Host facilities that the code calls
are modelled explicitly where they matter and documented where approximated:
* `Array.prototype.sort` is modelled by a stable comparison sort
  (`jsSortBy`); ECMAScript guarantees a stable sort for *consistent*
  comparators, and any stable comparison sort agrees with this model there.
* `Date` parsing/printing is modelled for ISO `YYYY-MM-DDTHH:MM:SS(.mmm)?Z`
  strings (the format the spec prescribes); other host-accepted formats are
  modelled as invalid dates.
* `timestamp_utc` fields (wall-clock `new Date().toISOString()`) and the
  `Date.now()` component of `bundle_id` are omitted from the deliverable
  records: they are host-time nondeterminism with no data flow into any
  other field.
* `ToNumber` / string coercion of arrays and plain objects (which round-trips
  through `ToPrimitive` in JS) is modelled as `NaN` / `"[object Object]"`;
  no reachable computation in this program distinguishes the difference.
-/

namespace YieldPilot

/-- A JavaScript runtime value.  Finite numbers are exact rationals; `nan`
is kept separate because `typeof NaN === 'number'` but `Number.isNaN`
distinguishes it and arithmetic propagates it. -/
inductive JSVal where
  | undefined
  | null
  | bool (b : Bool)
  | num (q : ℚ)
  | nan
  | str (s : String)
  | arr (elems : List JSVal)
  | obj (fields : List (String × JSVal))

/-- A thrown JS exception, by constructor and message. -/
inductive JSErr where
  | typeError (msg : String)
  | rangeError (msg : String)
  | refError (name : String)
deriving DecidableEq, Repr

/-- Computations that can throw. -/
abbrev JSM := Except JSErr

@[simp] theorem jsm_ok_bind {α β : Type} (a : α) (f : α → JSM β) :
    (Except.ok a : JSM α) >>= f = f a := rfl

@[simp] theorem jsm_err_bind {α β : Type} (e : JSErr) (f : α → JSM β) :
    (Except.error e : JSM α) >>= f = Except.error e := rfl

@[simp] theorem jsm_pure {α : Type} (a : α) : (pure a : JSM α) = Except.ok a := rfl

@[simp] theorem jsm_map_ok {α β : Type} (f : α → β) (a : α) :
    (Except.ok a : JSM α).map f = Except.ok (f a) := rfl

@[simp] theorem jsm_map_err {α β : Type} (f : α → β) (e : JSErr) :
    (Except.error e : JSM α).map f = Except.error e := rfl

namespace JSVal

/-- JS truthiness: `false`, `0`, `-0`, `''`, `null`, `undefined`, `NaN`
are falsy, everything else truthy. -/
def truthy : JSVal → Bool
  | undefined => false
  | null => false
  | bool b => b
  | num q => decide (q ≠ 0)
  | nan => false
  | str s => decide (s ≠ "")
  | arr _ => true
  | obj _ => true

/-- `v === undefined` / `v === null` (the bases on which property access
throws). -/
def isNullish : JSVal → Bool
  | undefined => true
  | null => true
  | _ => false

def isUndefined : JSVal → Bool
  | undefined => true
  | _ => false

def isNull : JSVal → Bool
  | null => true
  | _ => false

/-- `typeof v === 'object'` (true for objects, arrays and `null`). -/
def typeofIsObject : JSVal → Bool
  | obj _ => true
  | arr _ => true
  | null => true
  | _ => false

/-- Strict equality against a string literal, `v === 's'`. -/
def strEq : JSVal → String → Bool
  | str t, s => t == s
  | _, _ => false

/-- Strict equality against a number literal, `v === n`. -/
def numEq : JSVal → ℚ → Bool
  | num q, n => q == n
  | _, _ => false

end JSVal

open JSVal

/-- `a || b`. -/
def jsOr (a b : JSVal) : JSVal := if a.truthy then a else b

/-- `a ?? b` (nullish coalescing). -/
def jsNullish (a b : JSVal) : JSVal := if a.isNullish then b else a

/-- Property lookup on a value that is not `null`/`undefined`.  Objects use
first-key lookup (all reachable objects have distinct keys); every other
non-nullish base has no own properties that this program reads, so the
access yields `undefined`. -/
def fieldOf (v : JSVal) (k : String) : JSVal :=
  match v with
  | .obj fields => ((fields.find? (fun p => p.1 == k)).map (fun p => p.2)).getD .undefined
  | _ => .undefined

/-- Property access `v.k`: throws a `TypeError` when the base is
`null`/`undefined`, as in JS. -/
def getF (v : JSVal) (k : String) : JSM JSVal :=
  match v with
  | .undefined => .error (.typeError ("Cannot read properties of undefined (reading " ++ k ++ ")"))
  | .null => .error (.typeError ("Cannot read properties of null (reading " ++ k ++ ")"))
  | v => .ok (fieldOf v k)

@[simp] theorem getF_obj (fields : List (String × JSVal)) (k : String) :
    getF (.obj fields) k = .ok (fieldOf (.obj fields) k) := rfl
@[simp] theorem getF_arr (xs : List JSVal) (k : String) :
    getF (.arr xs) k = .ok .undefined := rfl
@[simp] theorem getF_num (q : ℚ) (k : String) : getF (.num q) k = .ok .undefined := rfl
@[simp] theorem getF_nan (k : String) : getF .nan k = .ok .undefined := rfl
@[simp] theorem getF_str (s k : String) : getF (.str s) k = .ok .undefined := rfl
@[simp] theorem getF_bool (b : Bool) (k : String) : getF (.bool b) k = .ok .undefined := rfl

theorem getF_ok_of_not_isNullish {v : JSVal} (h : v.isNullish = false) (k : String) :
    getF v k = .ok (fieldOf v k) := by
  cases v <;> simp_all [getF, isNullish]

-- ---------- Numbers ----------

/-- A JS number in a numeric context: `none` is `NaN`.  (±Infinity never
arises in this program: every division has a nonzero divisor on its
reachable paths, see the call sites.) -/
abbrev JNum := Option ℚ

/-- `ToNumber` coercion.  Arrays and plain objects (which coerce through
`ToPrimitive`) are modelled as `NaN`; no reachable computation depends on
the array-to-primitive corner. String contents are parsed as optionally
signed decimal numerals, `''` coercing to `0`. -/
def strToNum (s : String) : JNum :=
  let t := s.trim
  if t = "" then some 0
  else
    let (sign, digits) : ℚ × List Char :=
      match t.data with
      | '-' :: rest => (-1, rest)
      | '+' :: rest => (1, rest)
      | l => (1, l)
    let intPart := digits.takeWhile Char.isDigit
    let rest := digits.dropWhile Char.isDigit
    let fracDigits : Option (List Char) :=
      match rest with
      | [] => some []
      | '.' :: fr => if fr.all Char.isDigit then some fr else none
      | _ => none
    match fracDigits with
    | none => none
    | some fr =>
      if intPart.isEmpty ∧ fr.isEmpty then none
      else
        let iv : ℚ := intPart.foldl (fun acc c => acc * 10 + (c.toNat - 48 : ℕ)) 0
        let fv : ℚ := fr.foldr (fun c acc => (acc + (c.toNat - 48 : ℕ)) / 10) 0
        some (sign * (iv + fv))

def toNum : JSVal → JNum
  | .undefined => none
  | .null => some 0
  | .bool b => some (if b then 1 else 0)
  | .num q => some q
  | .nan => none
  | .str s => strToNum s
  | .arr _ => none
  | .obj _ => none

def jAdd (a b : JNum) : JNum := match a, b with
  | some x, some y => some (x + y)
  | _, _ => none

def jSub (a b : JNum) : JNum := match a, b with
  | some x, some y => some (x - y)
  | _, _ => none

def jMul (a b : JNum) : JNum := match a, b with
  | some x, some y => some (x * y)
  | _, _ => none

/-- Division; the zero-divisor case (JS `±Infinity`) is modelled as `NaN`
and is unreachable in this program (divisors are positive constants,
`splits ∈ {1,2}`, or a capital already checked `> 0`). -/
def jDiv (a b : JNum) : JNum := match a, b with
  | some x, some y => if y = 0 then none else some (x / y)
  | _, _ => none

/-- Numeric `<=`; false when either side is `NaN`. -/
def jLe (a b : JNum) : Bool := match a, b with
  | some x, some y => decide (x ≤ y)
  | _, _ => false

/-- Numeric `<`; false when either side is `NaN`. -/
def jLt (a b : JNum) : Bool := match a, b with
  | some x, some y => decide (x < y)
  | _, _ => false

/-- `a >= b`. -/
def jGe (a b : JNum) : Bool := jLe b a

/-- `Math.max` on two arguments (`NaN` propagates). -/
def jMax (a b : JNum) : JNum := match a, b with
  | some x, some y => some (max x y)
  | _, _ => none

/-- `Math.min` on two arguments (`NaN` propagates). -/
def jMin (a b : JNum) : JNum := match a, b with
  | some x, some y => some (min x y)
  | _, _ => none

/-- `Math.round`: round half toward positive infinity, `⌊x + 1/2⌋`. -/
def roundJS (q : ℚ) : ℤ := ⌊q + 1/2⌋

def jRound (a : JNum) : JNum := a.map (fun q => (roundJS q : ℚ))

/-- `Math.round(x * 10) / 10`. -/
def roundTo1 (q : ℚ) : ℚ := (roundJS (q * 10) : ℚ) / 10

/-- `Math.round(x * 100) / 100`. -/
def roundTo2 (q : ℚ) : ℚ := (roundJS (q * 100) : ℚ) / 100

def jRoundTo2 (a : JNum) : JNum := a.map roundTo2


-- ---------- Strings ----------

/-- ASCII-wise `String.prototype.toLowerCase` (all reachable strings are
ASCII). -/
def strLower (s : String) : String := String.mk (s.data.map Char.toLower)

/-- ASCII-wise `String.prototype.toUpperCase`. -/
def strUpper (s : String) : String := String.mk (s.data.map Char.toUpper)

def charsStartWith : List Char → List Char → Bool
  | _, [] => true
  | [], _ :: _ => false
  | c :: cs, p :: ps => c == p && charsStartWith cs ps

def charsContain : List Char → List Char → Bool
  | l, pat =>
    if charsStartWith l pat then true
    else
      match l with
      | [] => false
      | _ :: rest => charsContain rest pat

/-- `s.includes(pat)`. -/
def strIncludes (s pat : String) : Bool := charsContain s.data pat.data

/-- `idx.toString().padStart(2, '0')`. -/
def padStart2 (n : ℕ) : String :=
  let s := toString n
  if s.length < 2 then "0" ++ s else s

/-- `n.toString(16)` for a natural number. -/
def natToHex (n : ℕ) : String := String.mk (Nat.toDigits 16 n)

/-- Decimal rendering of an integer. -/
def intDisplay (n : ℤ) : String :=
  if n < 0 then "-" ++ toString n.natAbs else toString n.natAbs

/-- Fixed-point rendering with `d` fractional digits of a nonnegative
integer scaled by `10^d`. -/
def scaledDisplay (d : ℕ) (n : ℤ) : String :=
  let sign := if n < 0 then "-" else ""
  let a := n.natAbs
  let ip := a / 10 ^ d
  let fp := a % 10 ^ d
  let fpStr := toString fp
  let fpPad := String.mk (List.replicate (d - fpStr.length) '0') ++ fpStr
  sign ++ toString ip ++ "." ++ fpPad

/-- `x.toFixed(2)`: nearest multiple of `1/100`, ties toward `+∞`
(ECMAScript picks the larger candidate on ties).  The `-0.00` corner is
rendered without the sign; no claim depends on it. -/
def toFixed2 (q : ℚ) : String := scaledDisplay 2 (roundJS (q * 100))

/-- `x.toFixed(1)`. -/
def toFixed1 (q : ℚ) : String := scaledDisplay 1 (roundJS (q * 10))

/-- Decimal rendering of a rational used only inside template-literal
strings.  JS prints the shortest round-tripping double; integral values
agree with this model, and non-integral values (which never reach a
claim-relevant string) are rendered as `num/den`. -/
def qDisplay (q : ℚ) : String :=
  if q.den = 1 then intDisplay q.num
  else intDisplay q.num ++ "/" ++ toString q.den

mutual

/-- String coercion as used by template literals (`${v}`). -/
def jsDisplay : JSVal → String
  | .undefined => "undefined"
  | .null => "null"
  | .bool b => if b then "true" else "false"
  | .num q => qDisplay q
  | .nan => "NaN"
  | .str s => s
  | .arr xs => jsDisplayElems xs
  | .obj _ => "[object Object]"

/-- `Array.prototype.join(',')` on the elements, with `null`/`undefined`
rendered empty, as `ToString` does for arrays. -/
def jsDisplayElems : List JSVal → String
  | [] => ""
  | [x] => jsDisplayElem x
  | x :: rest => jsDisplayElem x ++ "," ++ jsDisplayElems rest

def jsDisplayElem : JSVal → String
  | .undefined => ""
  | .null => ""
  | v => jsDisplay v

end

/-- Method call `v.toLowerCase()`: a `TypeError` unless the receiver is a
string (property read on `null`/`undefined`, not-a-function otherwise). -/
def jsToLowerCase (v : JSVal) : JSM String :=
  match v with
  | .str s => .ok (strLower s)
  | .null => .error (.typeError "Cannot read properties of null (reading toLowerCase)")
  | .undefined => .error (.typeError "Cannot read properties of undefined (reading toLowerCase)")
  | _ => .error (.typeError "toLowerCase is not a function")

def jsToUpperCase (v : JSVal) : JSM String :=
  match v with
  | .str s => .ok (strUpper s)
  | .null => .error (.typeError "Cannot read properties of null (reading toUpperCase)")
  | .undefined => .error (.typeError "Cannot read properties of undefined (reading toUpperCase)")
  | _ => .error (.typeError "toUpperCase is not a function")

/-- Method call `v.slice(0, n)` on a supposed string. -/
def jsSliceStr (v : JSVal) (n : ℕ) : JSM String :=
  match v with
  | .str s => .ok (s.take n)
  | .null => .error (.typeError "Cannot read properties of null (reading slice)")
  | .undefined => .error (.typeError "Cannot read properties of undefined (reading slice)")
  | _ => .error (.typeError "slice is not a function")

/-- Binary `+` where the right operand is a number literal: string
concatenation if the left is a string, numeric addition otherwise. -/
def jsAddNum (v : JSVal) (n : ℚ) : JSVal :=
  match v with
  | .str s => .str (s ++ qDisplay n)
  | v => match jAdd (toNum v) (some n) with
    | some q => .num q
    | none => .nan

-- ---------- Validation errors ----------

/-- `validationError(message, field)`. -/
structure VErr where
  message : String
  field : String
deriving DecidableEq, Repr

def validationError (message field : String) : VErr := ⟨message, field⟩

/-- `typeof v === 'string'`. -/
def ensureString : JSVal → Bool
  | .str _ => true
  | _ => false

/-- `typeof v === 'number' && !Number.isNaN(v)`. -/
def ensureNumber : JSVal → Bool
  | .num _ => true
  | _ => false

/-- `typeof v === 'boolean'`. -/
def ensureBoolean : JSVal → Bool
  | .bool _ => true
  | _ => false

/-- `Array.isArray(v)`. -/
def ensureArray : JSVal → Bool
  | .arr _ => true
  | _ => false

/-- Except-valued map, mirroring a `forEach`/`map` whose body can throw:
the first throw aborts the whole traversal. -/
def mapJSM {α β : Type} (f : α → JSM β) : List α → JSM (List β)
  | [] => .ok []
  | a :: l => do
    let b ← f a
    let r ← mapJSM f l
    pure (b :: r)

/-- Index-carrying variant for `forEach((item, idx) => ...)`. -/
def mapIdxJSM {α β : Type} (f : ℕ → α → JSM β) : ℕ → List α → JSM (List β)
  | _, [] => .ok []
  | i, a :: l => do
    let b ← f i a
    let r ← mapIdxJSM f (i + 1) l
    pure (b :: r)

-- ---------- JOB 1 validator: yield_scan_and_ranking ----------

/-- `validateYieldScan(input)` (`src/seller.js:75`).  Property reads on the
input can throw when the input itself is `null`/`undefined`, hence the
`JSM` result; the body never throws otherwise. -/
def validateYieldScan (input : JSVal) : JSM (List VErr) := do
  let cid ← getF input "client_agent_id"
  let e1 := if ensureString cid then [] else
    [validationError "client_agent_id must be string" "client_agent_id"]
  let chain ← getF input "chain"
  let e2 := if ensureString chain then [] else
    [validationError "chain must be string" "chain"]
  let assets ← getF input "assets"
  let e3 :=
    match assets with
    | .arr xs =>
      if xs.all ensureString then [] else
        [validationError "assets items must be strings" "assets"]
    | _ => [validationError "assets must be array of strings" "assets"]
  let rt ← getF input "risk_tolerance"
  let e4 := if ensureString rt then [] else
    [validationError "risk_tolerance must be string" "risk_tolerance"]
  let tvl ← getF input "min_tvl_usd"
  let e5 := if ensureNumber tvl then [] else
    [validationError "min_tvl_usd must be number" "min_tvl_usd"]
  let lb ← getF input "lookback_hours"
  let e6 := if ensureNumber lb then [] else
    [validationError "lookback_hours must be number" "lookback_hours"]
  pure (e1 ++ e2 ++ e3 ++ e4 ++ e5 ++ e6)

-- ---------- JOB 2 validator: portfolio_yield_allocation_plan ----------

/-- `validatePortfolioPlan(input)` (`src/seller.js:334`). -/
def validatePortfolioPlan (input : JSVal) : JSM (List VErr) := do
  let cid ← getF input "client_agent_id"
  let e1 := if ensureString cid then [] else
    [validationError "client_agent_id must be string" "client_agent_id"]
  let chain ← getF input "chain"
  let e2 := if ensureString chain then [] else
    [validationError "chain must be string" "chain"]
  let cap ← getF input "starting_capital_usd"
  let e3 := if ensureNumber cap then [] else
    [validationError "starting_capital_usd must be number" "starting_capital_usd"]
  let rt ← getF input "risk_tolerance"
  let e4 := if ensureString rt then [] else
    [validationError "risk_tolerance must be string" "risk_tolerance"]
  let hz ← getF input "target_horizon_days"
  let e5 := if ensureNumber hz then [] else
    [validationError "target_horizon_days must be number" "target_horizon_days"]
  let p ← getF input "preferences"
  let e6 :=
    if ¬ p.typeofIsObject ∨ p.isNull then
      [validationError "preferences must be object" "preferences"]
    else
      (if ensureBoolean (fieldOf p "allow_leverage") then [] else
        [validationError "preferences.allow_leverage must be boolean" "preferences.allow_leverage"]) ++
      (if ensureBoolean (fieldOf p "allow_lockups") then [] else
        [validationError "preferences.allow_lockups must be boolean" "preferences.allow_lockups"]) ++
      (if ensureNumber (fieldOf p "max_positions") then [] else
        [validationError "preferences.max_positions must be number" "preferences.max_positions"])
  pure (e1 ++ e2 ++ e3 ++ e4 ++ e5 ++ e6)

-- ---------- JOB 3 validator: execution_bundle_builder ----------

/-- Per-item checks of `validateExecutionBundle`; reading a field of a
`null`/`undefined` array element throws, as in the source. -/
def validateBundleItem (idx : ℕ) (item : JSVal) : JSM (List VErr) := do
  let ai ← getF item "asset_in"
  let e1 := if ensureString ai then [] else
    [validationError ("desired_allocations[" ++ toString idx ++ "].asset_in must be string")
      ("desired_allocations." ++ toString idx ++ ".asset_in")]
  let ao ← getF item "asset_out"
  let e2 := if ensureString ao then [] else
    [validationError ("desired_allocations[" ++ toString idx ++ "].asset_out must be string")
      ("desired_allocations." ++ toString idx ++ ".asset_out")]
  let am ← getF item "amount_in"
  let e3 := if ensureNumber am then [] else
    [validationError ("desired_allocations[" ++ toString idx ++ "].amount_in must be number")
      ("desired_allocations." ++ toString idx ++ ".amount_in")]
  let ve ← getF item "venue"
  let e4 := if ensureString ve then [] else
    [validationError ("desired_allocations[" ++ toString idx ++ "].venue must be string")
      ("desired_allocations." ++ toString idx ++ ".venue")]
  pure (e1 ++ e2 ++ e3 ++ e4)

/-- `validateExecutionBundle(input)` (`src/seller.js:580`). -/
def validateExecutionBundle (input : JSVal) : JSM (List VErr) := do
  let cid ← getF input "client_agent_id"
  let e1 := if ensureString cid then [] else
    [validationError "client_agent_id must be string" "client_agent_id"]
  let chain ← getF input "chain"
  let e2 := if ensureString chain then [] else
    [validationError "chain must be string" "chain"]
  let da ← getF input "desired_allocations"
  let e3 ←
    match da with
    | .arr items => do
      let errLists ← mapIdxJSM validateBundleItem 0 items
      pure errLists.flatten
    | _ => pure [validationError "desired_allocations must be array" "desired_allocations"]
  let sl ← getF input "slippage_bps"
  let e4 := if ¬ sl.isUndefined ∧ ¬ ensureNumber sl then
    [validationError "slippage_bps must be number when provided" "slippage_bps"] else []
  let dl ← getF input "deadline_seconds"
  let e5 := if ¬ dl.isUndefined ∧ ¬ ensureNumber dl then
    [validationError "deadline_seconds must be number when provided" "deadline_seconds"] else []
  let pb ← getF input "prefer_batching"
  let e6 := if ¬ pb.isUndefined ∧ ¬ ensureBoolean pb then
    [validationError "prefer_batching must be boolean when provided" "prefer_batching"] else []
  pure (e1 ++ e2 ++ e3 ++ e4 ++ e5 ++ e6)

-- ---------- JOB 4 validator: position_health_monitor ----------

/-- Per-position checks of `validatePositionHealth`. -/
def validatePositionItem (idx : ℕ) (pos : JSVal) : JSM (List VErr) := do
  let pr ← getF pos "protocol"
  let e1 := if ensureString pr then [] else
    [validationError ("positions[" ++ toString idx ++ "].protocol must be string")
      ("positions." ++ toString idx ++ ".protocol")]
  let pa ← getF pos "pool_address"
  let e2 := if ensureString pa then [] else
    [validationError ("positions[" ++ toString idx ++ "].pool_address must be string")
      ("positions." ++ toString idx ++ ".pool_address")]
  let pid ← getF pos "position_id"
  let e3 := if ensureString pid then [] else
    [validationError ("positions[" ++ toString idx ++ "].position_id must be string")
      ("positions." ++ toString idx ++ ".position_id")]
  let ht ← getF pos "health_threshold"
  let e4 := if ensureNumber ht then [] else
    [validationError ("positions[" ++ toString idx ++ "].health_threshold must be number")
      ("positions." ++ toString idx ++ ".health_threshold")]
  pure (e1 ++ e2 ++ e3 ++ e4)

/-- `validatePositionHealth(input)` (`src/seller.js:747`). -/
def validatePositionHealth (input : JSVal) : JSM (List VErr) := do
  let cid ← getF input "client_agent_id"
  let e1 := if ensureString cid then [] else
    [validationError "client_agent_id must be string" "client_agent_id"]
  let chain ← getF input "chain"
  let e2 := if ensureString chain then [] else
    [validationError "chain must be string" "chain"]
  let ps ← getF input "positions"
  let e3 ←
    match ps with
    | .arr items => do
      let errLists ← mapIdxJSM validatePositionItem 0 items
      pure errLists.flatten
    | _ => pure [validationError "positions must be array" "positions"]
  let nc ← getF input "notify_channel"
  let e4 := if ensureString nc then [] else
    [validationError "notify_channel must be string" "notify_channel"]
  let cf ← getF input "check_frequency_minutes"
  let e5 := if ensureNumber cf then [] else
    [validationError "check_frequency_minutes must be number" "check_frequency_minutes"]
  pure (e1 ++ e2 ++ e3 ++ e4 ++ e5)

-- ---------- JOB 5 validator: strategy_backtest_report ----------

/-- `validateBacktest(input)` (`src/seller.js:899`). -/
def validateBacktest (input : JSVal) : JSM (List VErr) := do
  let cid ← getF input "client_agent_id"
  let e1 := if ensureString cid then [] else
    [validationError "client_agent_id must be string" "client_agent_id"]
  let chain ← getF input "chain"
  let e2 := if ensureString chain then [] else
    [validationError "chain must be string" "chain"]
  let sn ← getF input "strategy_name"
  let e3 := if ensureString sn then [] else
    [validationError "strategy_name must be string" "strategy_name"]
  let bs ← getF input "backtest_start_utc"
  let e4 := if ensureString bs then [] else
    [validationError "backtest_start_utc must be string" "backtest_start_utc"]
  let be ← getF input "backtest_end_utc"
  let e5 := if ensureString be then [] else
    [validationError "backtest_end_utc must be string" "backtest_end_utc"]
  let ic ← getF input "initial_capital_usd"
  let e6 := if ensureNumber ic then [] else
    [validationError "initial_capital_usd must be number" "initial_capital_usd"]
  let sa ← getF input "simulated_actions"
  let e7 :=
    match sa with
    | .arr xs =>
      if xs.all ensureString then [] else
        [validationError "simulated_actions items must be strings" "simulated_actions"]
    | _ => [validationError "simulated_actions must be array of strings" "simulated_actions"]
  pure (e1 ++ e2 ++ e3 ++ e4 ++ e5 ++ e6 ++ e7)

-- ---------- DeFi-ish helpers ----------

/-- `classifyAsset(symbol)` (`src/seller.js:39`): `(symbol || '')` rescues
falsy symbols, but a truthy non-string receiver makes `.toUpperCase()`
throw. -/
def classifyAsset (symbol : JSVal) : JSM String := do
  let s ← jsToUpperCase (jsOr symbol (.str ""))
  if ["USDC", "USDT", "DAI", "FRAX", "LUSD"].contains s then pure "stablecoin"
  else if ["ETH", "WETH", "WBTC"].contains s then pure "bluechip"
  else if strIncludes s "-LP" || strIncludes s "/" then pure "lp_token"
  else pure "long_tail"

/-- `chainRiskFactor(chain)` (`src/seller.js:53`). -/
def chainRiskFactor (chain : JSVal) : JSM ℚ := do
  let c ← jsToLowerCase (jsOr chain (.str ""))
  if strIncludes c "mainnet" || c == "ethereum" then pure 0.8
  else if strIncludes c "base" || strIncludes c "arbitrum" || strIncludes c "optimism" then pure 1.0
  else pure 1.2

/-- `riskToleranceBias(riskTolerance)` (`src/seller.js:60`):
`(apyBoost, riskBoost)`. -/
def riskToleranceBias (riskTolerance : JSVal) : ℚ × ℚ :=
  if riskTolerance.strEq "conservative" then (-3, -15)
  else if riskTolerance.strEq "balanced" then (0, 0)
  else if riskTolerance.strEq "aggressive" then (5, 10)
  else (0, 0)

-- ---------- Stable sort model ----------

/-- Insert `a` after every prefix element `b` with `cmp b a <= 0`,
i.e. after every earlier element the comparator does not order strictly
after `a`.  With the accumulator fold below this realises a stable
comparison sort. -/
def jsInsert {α : Type} (cmp : α → α → ℚ) (a : α) : List α → List α
  | [] => [a]
  | b :: rest => if cmp b a ≤ 0 then b :: jsInsert cmp a rest else a :: b :: rest

/-- Model of `Array.prototype.sort(cmp)`: a stable insertion sort.
For a consistent comparator this is the (unique) stable sorted order
ECMAScript specifies; for an inconsistent comparator ECMAScript leaves
the order implementation-defined and this model fixes one concrete
comparison sort. -/
def jsSortBy {α : Type} (cmp : α → α → ℚ) (l : List α) : List α :=
  l.foldl (fun acc x => jsInsert cmp x acc) []

-- ---------- JOB 1 computer: yield_scan_and_ranking ----------

structure RiskBreakdown where
  smart_contract_risk : ℚ
  liquidity_risk : ℚ
  depeg_risk : ℚ
  impermanent_loss_risk : ℚ
deriving DecidableEq, Repr

structure Opportunity where
  protocol : String
  pool_address : String
  chain : JSVal
  asset : JSVal
  asset_type : String
  venue_type : String
  risk_band : String
  estimated_apy : ℚ
  tvl_usd : JNum
  risk_score : ℚ
  risk_breakdown : RiskBreakdown
  lookback_hours_used : JSVal
  qualitative_summary : String
  fit_explanation : String

structure PortfolioHints where
  core_yield_candidate : Option Opportunity
  max_apy_candidate : Option Opportunity
  diversification_comment : String

/-- The `timestamp_utc` field (wall clock) is omitted; see the header. -/
structure ScanOut where
  job_name : String
  chain : JSVal
  assets : List JSVal
  risk_tolerance : JSVal
  min_tvl_usd_applied : JSVal
  opportunities_ranked : List Opportunity
  portfolio_hints : PortfolioHints
  validation_passed : Bool
  validation_errors : List VErr

/-- Inner `buildRiskScore(level, tvl)` (`src/seller.js:169`), closed over
the TVL tiers and chain factor. -/
def buildRiskScore (chainRisk : ℚ) (tvlMid tvlHigh : JNum) (level : String) (tvl : JNum) : ℚ :=
  let score : ℚ := if level = "low" then 20 else if level = "medium" then 45 else 70
  let score := if jGe tvl tvlHigh then score - 5 else if jGe tvl tvlMid then score - 2 else score
  let score := score * chainRisk
  max 5 (min 95 (roundJS score : ℚ))

/-- Inner `buildRiskBreakdown(level, tvl, assetTypeInner)`
(`src/seller.js:185`). -/
def buildRiskBreakdown (tvlHigh : JNum) (level : String) (tvl : JNum)
    (assetTypeInner : String) : RiskBreakdown :=
  let scr : ℚ := if level = "low" then 15 else if level = "medium" then 30 else 45
  let lr : ℚ :=
    if level = "low" then (if jLe tvlHigh tvl then 10 else 20)
    else if level = "medium" then (if jLe tvlHigh tvl then 20 else 35)
    else (if jLe tvlHigh tvl then 30 else 45)
  let dr : ℚ :=
    if assetTypeInner = "stablecoin" then
      (if level = "low" then 5 else if level = "medium" then 15 else 25)
    else if assetTypeInner = "long_tail" then
      (if level = "low" then 10 else if level = "medium" then 25 else 40)
    else 0
  let ilr : ℚ :=
    if assetTypeInner = "lp_token" then
      (if level = "low" then 20 else if level = "medium" then 35 else 50)
    else 0
  ⟨scr, lr, dr, ilr⟩

/-- The `fit_explanation` IIFE (`src/seller.js:265`). -/
def fitExplanation (rt : JSVal) (level : String) : String :=
  if rt.strEq "conservative" then
    if level = "low" then
      "Aligned with conservative profile; focus on principal preservation and sustainable yield."
    else if level = "medium" then
      "Borderline fit; could be used as a small satellite allocation if capital is segmented."
    else
      "Not recommended for conservative profile; risk / reward skew is too aggressive."
  else if rt.strEq "aggressive" then
    if level = "high" then
      "Good fit for degen bucket with tight risk monitoring and sizing discipline."
    else
      "Core position candidate to anchor portfolio while keeping optionality for higher-risk legs."
  else
    "Candidate venue for balanced risk; size within overall risk budget and ensure monitoring alerts."

/-- One variant record from the `variants` array (`src/seller.js:215`). -/
structure ScanVariant where
  level : String
  protocol : String
  description : String
  apyBase : ℚ
  tvl : JNum
  venue_type : String

/-- Build one pushed opportunity (`src/seller.js:243`).  The
`pool_address` template slices the asset symbol, which throws on a
non-string symbol exactly as in the source. -/
def buildOpportunity (chain rt lookback : JSVal) (bias : ℚ × ℚ) (chainRisk : ℚ)
    (tvlMid tvlHigh : JNum) (assetSymbol : JSVal) (assetType : String)
    (v : ScanVariant) : JSM Opportunity := do
  let estApy : ℚ := max 0.1 (roundTo1 (v.apyBase + bias.1))
  let riskScore : ℚ := buildRiskScore chainRisk tvlMid tvlHigh v.level v.tvl + bias.2
  let finalRiskScore : ℚ := max 5 (min 95 (roundJS riskScore : ℚ))
  let protoSlice ← jsSliceStr (.str v.protocol) 6
  let symSlice ← jsSliceStr assetSymbol 4
  pure {
    protocol := v.protocol
    pool_address := "0x" ++ protoSlice ++ symSlice ++ "Pool..."
    chain := chain
    asset := assetSymbol
    asset_type := assetType
    venue_type := v.venue_type
    risk_band := v.level
    estimated_apy := estApy
    tvl_usd := v.tvl
    risk_score := finalRiskScore
    risk_breakdown := buildRiskBreakdown tvlHigh v.level v.tvl assetType
    lookback_hours_used := lookback
    qualitative_summary := v.description
    fit_explanation := fitExplanation rt v.level
  }

/-- The per-asset body of the `assets.forEach` loop (`src/seller.js:134`):
classify, derive APY bands and TVL tiers, then push the three variants. -/
def scanAsset (chain rt lookback : JSVal) (bias : ℚ × ℚ) (chainRisk : ℚ)
    (minTvl : JSVal) (assetSymbol : JSVal) : JSM (List Opportunity) := do
  let assetType ← classifyAsset assetSymbol
  let (baseLowRiskApy, baseMediumRiskApy, baseHighRiskApy) : ℚ × ℚ × ℚ :=
    if assetType = "stablecoin" then (3, 6, 12)
    else if assetType = "bluechip" then (4, 10, 20)
    else if assetType = "lp_token" then (8, 20, 45)
    else (6, 18, 60)
  let tvlFloor := jMax (toNum minTvl) (some 50000)
  let tvlMid := jMul tvlFloor (some 5)
  let tvlHigh := jMul tvlFloor (some 25)
  let variants : List ScanVariant := [
    { level := "low", protocol := "SafeLend"
      description := "Conservative lending / borrowing market on battle-tested lending protocol."
      apyBase := baseLowRiskApy, tvl := tvlHigh, venue_type := "lending" },
    { level := "medium", protocol := "YieldDex"
      description := "DEX pool or boosted lending vault with moderate incentives."
      apyBase := baseMediumRiskApy, tvl := tvlMid
      venue_type := if assetType = "lp_token" then "lp" else "dex_pool" },
    { level := "high", protocol := "DeFiTurbo"
      description := "High-incentive farm with non-trivial smart-contract and liquidity risk. For degen bucket only."
      apyBase := baseHighRiskApy, tvl := tvlFloor, venue_type := "structured_farm" }]
  mapJSM (buildOpportunity chain rt lookback bias chainRisk tvlMid tvlHigh assetSymbol assetType)
    variants

/-- The ranking comparator (`src/seller.js:288`).  Faithful to the source,
including its asymmetry: in the balanced/default branch `bUtil` is computed
as `b.estimated_apy - b.estimated_apy * 0.15` (the risk term mistakenly
reuses the APY), while `aUtil` uses `a.risk_score * 0.15`. -/
def scanUtilityCmp (rt : JSVal) (a b : Opportunity) : ℚ :=
  let aUtil : ℚ :=
    if rt.strEq "conservative" then a.estimated_apy - a.risk_score * 0.2
    else if rt.strEq "aggressive" then a.estimated_apy * 1.3 - a.risk_score * 0.1
    else a.estimated_apy - a.risk_score * 0.15
  let bUtil : ℚ :=
    if rt.strEq "conservative" then b.estimated_apy - b.risk_score * 0.2
    else if rt.strEq "aggressive" then b.estimated_apy * 1.3 - b.risk_score * 0.1
    else b.estimated_apy - b.estimated_apy * 0.15
  bUtil - aUtil

/-- The secondary APY sort used for `max_apy_candidate`
(`src/seller.js:305`). -/
def apyCmp (a b : Opportunity) : ℚ := b.estimated_apy - a.estimated_apy

/-- `handleYieldScan(input)` (`src/seller.js:119`). -/
def handleYieldScan (input : JSVal) : JSM ScanOut := do
  let errors ← validateYieldScan input
  let valid := errors.isEmpty
  let chain := jsOr (← getF input "chain") (.str "unknown")
  let assets :=
    match ← getF input "assets" with
    | .arr xs => xs
    | _ => []
  let minTvl := jsOr (← getF input "min_tvl_usd") (.num 0)
  let lookback := jsOr (← getF input "lookback_hours") (.num 24)
  let rt := jsOr (← getF input "risk_tolerance") (.str "balanced")
  let bias := riskToleranceBias rt
  let chainRisk ← chainRiskFactor chain
  let oppLists ← mapJSM (scanAsset chain rt lookback bias chainRisk minTvl) assets
  let opportunities := oppLists.flatten
  let utilitySorted := jsSortBy (scanUtilityCmp rt) opportunities
  let bestLowRisk := utilitySorted.find? (fun o => o.risk_band == "low")
  let bestMaxApy := (jsSortBy apyCmp utilitySorted).head?
  pure {
    job_name := "yield_scan_and_ranking"
    chain := chain
    assets := assets
    risk_tolerance := rt
    min_tvl_usd_applied := minTvl
    opportunities_ranked := utilitySorted
    portfolio_hints := {
      core_yield_candidate := bestLowRisk
      max_apy_candidate := bestMaxApy
      diversification_comment :=
        if opportunities.length > 0 then
          "Mix 1–2 core venues (low/medium risk) with tightly sized exposure to a single high-risk farm if your mandate allows."
        else
          "No venues constructed; check input assets / parameters." }
    validation_passed := valid
    validation_errors := errors
  }

-- ---------- JOB 2 computer: portfolio_yield_allocation_plan ----------

/-- The default preferences object (`src/seller.js:382`). -/
def defaultPrefs : JSVal := .obj [
  ("allow_leverage", .bool false),
  ("allow_lockups", .bool false),
  ("max_positions", .num 3)]

/-- The risk-tolerance base weight triple `(core, satellite, experimental)`
(`src/seller.js:389`). -/
def planBaseWeights (rt : JSVal) : ℚ × ℚ × ℚ :=
  if rt.strEq "conservative" then (0.75, 0.2, 0.05)
  else if rt.strEq "aggressive" then (0.4, 0.35, 0.25)
  else (0.6, 0.25, 0.15)

/-- The lockup adjustment (`src/seller.js:404`): when lockups are not
allowed, the experimental weight is halved and a quarter of the *halved*
weight (`0.25 * experimentalWeight` after the `*= 0.5`) is added to each of
core and satellite. -/
def planAdjustedWeights (rt prefs : JSVal) : ℚ × ℚ × ℚ :=
  let (coreWeight, satelliteWeight, experimentalWeight) := planBaseWeights rt
  if (fieldOf prefs "allow_lockups").truthy then
    (coreWeight, satelliteWeight, experimentalWeight)
  else
    let experimentalWeight := experimentalWeight * 0.5
    let deficit := 0.25 * experimentalWeight
    (coreWeight + deficit, satelliteWeight + deficit, experimentalWeight)

/-- The normalization step (`src/seller.js:413`): `totalWeight = sum || 1`
(the `|| 1` guards a falsy, i.e. zero, sum) and each weight is divided by
it. -/
def planNormalizedWeights (rt prefs : JSVal) : ℚ × ℚ × ℚ :=
  let (coreWeight, satelliteWeight, experimentalWeight) := planAdjustedWeights rt prefs
  let totalWeight := coreWeight + satelliteWeight + experimentalWeight
  let totalWeight := if totalWeight = 0 then 1 else totalWeight
  (coreWeight / totalWeight, satelliteWeight / totalWeight, experimentalWeight / totalWeight)

structure ApyRange where
  low : ℚ
  mid : ℚ
  high : ℚ
deriving DecidableEq, Repr

structure Bucket where
  bucket_name : String
  archetype : String
  allocation_usd : JNum
  allocation_percent : ℚ
  expected_apy_range_pct : ApyRange
  risk_score : ℚ
  example_instruments : List String
  guardrails : List String

/-- Inner `buildBucketAlloc(name, weight, archetype)`
(`src/seller.js:421`); returns `null` when the allocated USD is not
positive (`NaN` capital builds the bucket, as `NaN <= 0` is false). -/
def buildBucketAlloc (rt : JSVal) (capital : JNum) (chainRisk : ℚ)
    (name : String) (weight : ℚ) (archetype : String) : Option Bucket :=
  let allocUsd := jMul capital (some weight)
  if jLe allocUsd (some 0) then none
  else
    let estApyMid : ℚ :=
      if archetype = "core" then
        (if rt.strEq "aggressive" then 8 else if rt.strEq "conservative" then 4 else 6)
      else if archetype = "satellite" then
        (if rt.strEq "aggressive" then 18 else 12)
      else
        (if rt.strEq "aggressive" then 35 else 25)
    let riskScore : ℚ :=
      if archetype = "core" then 25 * chainRisk
      else if archetype = "satellite" then 45 * chainRisk
      else 70 * chainRisk
    let estApyLow := estApyMid * 0.6
    let estApyHigh := estApyMid * 1.4
    some {
      bucket_name := name
      archetype := archetype
      allocation_usd := jRoundTo2 allocUsd
      allocation_percent := (roundJS (weight * 1000) : ℚ) / 10
      expected_apy_range_pct :=
        ⟨roundTo1 estApyLow, roundTo1 estApyMid, roundTo1 estApyHigh⟩
      risk_score := (roundJS (min 95 riskScore) : ℚ)
      example_instruments :=
        if archetype = "core" then
          ["Blue-chip stablecoin lending on battle-tested protocol"]
        else if archetype = "satellite" then
          ["ETH or blue-chip perp / vault", "LP in large-cap DEX pool"]
        else
          ["Long-tail farm with capped sizing", "High incentive LP with strict stop-loss rules"]
      guardrails :=
        if archetype = "core" then
          ["No leverage or only mild leverage (<= 1.3x) if explicitly allowed.",
           "Liquidity depth / TVL must be above internal threshold.",
           "Protocol must have public audits or strong battle-tested history."]
        else if archetype = "satellite" then
          ["Size each position so that a total loss does not break portfolio risk budget.",
           "Require on-chain activity / volume above minimal threshold.",
           "Monitor funding / rewards for sudden cliffs."]
        else
          ["Treat as “degen bucket”; assume potential near-total loss.",
           "Isolate in separate address / sub-account where possible.",
           "Explicitly tag these positions for elevated monitoring frequency."]
    }

structure PositionSlot where
  protocol_hint : String
  chain : JSVal
  asset_hint : String
  bucket_name : String
  archetype : String
  allocation_usd : JNum
  allocation_percent_of_portfolio : JNum
  expected_apy_range_pct : ApyRange
  risk_score : ℚ
  guardrails : List String

/-- Loop iteration count for `for (let i = 0; i < splits; i++)`: the
source's `splits` is `Math.max(1, Math.min(maxPositions, 2))`, an integer
`1` or `2`, or `NaN` (zero iterations). -/
def splitsCount (splits : JNum) : ℕ :=
  match splits with
  | none => 0
  | some q => if q ≤ 0 then 0 else ⌈q⌉.toNat

/-- `allocations.slice(0, maxPositions)` length bound: `NaN` coerces to 0,
and `maxPositions >= 1` otherwise. -/
def sliceBound (n : JNum) : ℕ :=
  match n with
  | none => 0
  | some q => if q ≤ 0 then 0 else ⌊q⌋.toNat

/-- The per-bucket slot flattening (`src/seller.js:490`). -/
def bucketSlots (chain : JSVal) (capital : JNum) (maxPositions : JNum)
    (bucket : Bucket) : List PositionSlot :=
  let splits := jMax (some 1) (jMin maxPositions (some 2))
  let perSlotUsd := jDiv bucket.allocation_usd splits
  List.replicate (splitsCount splits) {
    protocol_hint :=
      if bucket.archetype = "core" then "SafeLend (stablecoin lending)"
      else if bucket.archetype = "satellite" then "YieldDex (blue-chip LP / vault)"
      else "DeFiTurbo (high-incentive farm)"
    chain := chain
    asset_hint :=
      if bucket.archetype = "core" then "USDC / USDT"
      else if bucket.archetype = "satellite" then "WETH / ETH-USD LP"
      else "volatile / long-tail token or LP"
    bucket_name := bucket.bucket_name
    archetype := bucket.archetype
    allocation_usd := jRoundTo2 perSlotUsd
    allocation_percent_of_portfolio :=
      (jMul (jDiv perSlotUsd capital) (some 1000)).map (fun x => (roundJS x : ℚ) / 10)
    expected_apy_range_pct := bucket.expected_apy_range_pct
    risk_score := bucket.risk_score
    guardrails := bucket.guardrails
  }

structure Rebalancing where
  suggested_frequency_days : ℚ
  triggers : List String

structure ScenarioAnalysis where
  horizon_days : JSVal
  bear_case_return_pct : JNum
  base_case_return_pct : JNum
  bull_case_return_pct : JNum
  commentary : String

/-- The `timestamp_utc` field is omitted; see the header. -/
structure PlanOut where
  job_name : String
  chain : JSVal
  starting_capital_usd : JSVal
  risk_tolerance : JSVal
  preferences_applied : JSVal
  estimated_portfolio_apy_mid_pct : ℚ
  estimated_portfolio_risk_score : JNum
  buckets_view : List Bucket
  position_allocations_view : List PositionSlot
  rebalancing_policy : Rebalancing
  scenario_analysis : ScenarioAnalysis
  validation_passed : Bool
  validation_errors : List VErr

/-- `handlePortfolioPlan(input)` (`src/seller.js:374`). -/
def handlePortfolioPlan (input : JSVal) : JSM PlanOut := do
  let errors ← validatePortfolioPlan input
  let valid := errors.isEmpty
  let capitalV := jsOr (← getF input "starting_capital_usd") (.num 0)
  let capital := toNum capitalV
  let chain := jsOr (← getF input "chain") (.str "unknown")
  let rt := jsOr (← getF input "risk_tolerance") (.str "balanced")
  let horizonDays := jsOr (← getF input "target_horizon_days") (.num 30)
  let prefs := jsOr (← getF input "preferences") defaultPrefs
  let (coreWeight, satelliteWeight, experimentalWeight) := planNormalizedWeights rt prefs
  let maxPositions := jMax (some 1) (jRound (toNum (fieldOf prefs "max_positions")))
  let chainRisk ← chainRiskFactor chain
  let bucketsRaw := ([
    buildBucketAlloc rt capital chainRisk
      "Core yield (principal preservation focus)" coreWeight "core",
    buildBucketAlloc rt capital chainRisk
      "Satellite directional yield" satelliteWeight "satellite",
    buildBucketAlloc rt capital chainRisk
      "Experimental / degen bucket" experimentalWeight "experimental"] :
      List (Option Bucket)).reduceOption
  let allocations := bucketsRaw.flatMap (bucketSlots chain capital maxPositions)
  let estimatedPortfolioApyMid : ℚ :=
    if jLe capital (some 0) then 0
    else
      (bucketsRaw.foldl
        (fun acc b =>
          jAdd acc (jMul (some b.expected_apy_range_pct.mid) (jDiv b.allocation_usd capital)))
        (some 0)).getD 0
  let estimatedRiskScore : JNum :=
    if bucketsRaw.isEmpty then some 50
    else
      jRound (bucketsRaw.foldl
        (fun acc b => jAdd acc (jMul (some b.risk_score) (jDiv b.allocation_usd capital)))
        (some 0))
  pure {
    job_name := "portfolio_yield_allocation_plan"
    chain := chain
    starting_capital_usd := capitalV
    risk_tolerance := rt
    preferences_applied := prefs
    estimated_portfolio_apy_mid_pct := roundTo1 estimatedPortfolioApyMid
    estimated_portfolio_risk_score := estimatedRiskScore
    buckets_view := bucketsRaw
    position_allocations_view := allocations.take (sliceBound maxPositions)
    rebalancing_policy := {
      suggested_frequency_days :=
        if jLe (toNum horizonDays) (some 30) then 7
        else if jLe (toNum horizonDays) (some 90) then 14
        else 30
      triggers := [
        "Any position exceeding its maximum allowed weight by >25%.",
        "Sharp change in yield profile (>50% APY change in short window).",
        "Material protocol risk event (exploit, governance drama, depeg)."] }
    scenario_analysis := {
      horizon_days := horizonDays
      bear_case_return_pct :=
        jRound (jMul (some (estimatedPortfolioApyMid * 0.2)) (jDiv (toNum horizonDays) (some 365)))
      base_case_return_pct :=
        jRound (jMul (some (estimatedPortfolioApyMid * 0.8)) (jDiv (toNum horizonDays) (some 365)))
      bull_case_return_pct :=
        jRound (jMul (some (estimatedPortfolioApyMid * 1.6)) (jDiv (toNum horizonDays) (some 365)))
      commentary :=
        "Returns are expressed as non-annualized estimates over the provided horizon, based on synthetic APY assumptions. Use as planning guidance only." }
    validation_passed := valid
    validation_errors := errors
  }

-- ---------- JOB 3 computer: execution_bundle_builder ----------

structure TxMeta where
  chain : JSVal
  venue : String
  asset_in : JSVal
  asset_out : JSVal
  notional_estimate_usd : JSVal
  size_category : String
  price_impact_hint : String
  slippage_bps : JSVal
  deadline_seconds : JSVal

structure Tx where
  index : ℕ
  description : String
  action_type : String
  target : String
  data : String
  value : String
  gas_limit_hint : ℚ
  meta : TxMeta

structure BatchingPlan where
  strategy : String
  rationale : String
  tentative_batches : Option (List (String × List ℕ))

/-- `timestamp_utc` and the `Date.now()` part of `bundle_id` are host time
and omitted; see the header.  The `to` field is renamed `target` (Lean
keyword-adjacent), with the same content. -/
structure BundleOut where
  job_name : String
  chain : JSVal
  slippage_bps_applied : JSVal
  deadline_seconds_applied : JSVal
  prefer_batching : Bool
  estimated_gas_cost_usd : ℚ
  txs : List Tx
  batching_plan : BatchingPlan
  operational_risks : List String
  validation_passed : Bool
  validation_errors : List VErr

/-- `inferActionType(alloc)` (`src/seller.js:650`): throws on a non-string
`venue`/`asset_out`, as `.toLowerCase()`/`.toUpperCase()` do.  Returns the
action together with the venue string for reuse in the transaction. -/
def inferActionType (alloc : JSVal) : JSM (String × String × String) := do
  let venueRaw ← getF alloc "venue"
  let venue ← jsToLowerCase venueRaw
  let outRaw ← getF alloc "asset_out"
  let outU ← jsToUpperCase outRaw
  let action :=
    if strIncludes venue "lend" || strIncludes venue "aave" || strIncludes venue "compound" then
      "supply_or_borrow"
    else if strIncludes venue "lp" || strIncludes outU "-LP" || strIncludes outU "/" then
      "add_liquidity"
    else if strIncludes venue "vault" || strIncludes venue "farm" then
      "vault_deposit"
    else "swap"
  pure (action, venue, outU)

/-- Body of the `txs` map (`src/seller.js:665`). -/
def buildTx (chain slippageBps deadlineSeconds : JSVal) (idx : ℕ) (alloc : JSVal) :
    JSM Tx := do
  let (actionType, _, _) ← inferActionType alloc
  let amountIn ← getF alloc "amount_in"
  let sizeCategory :=
    if jLt (toNum amountIn) (some 1000) then "small"
    else if jLt (toNum amountIn) (some 100000) then "medium"
    else "large"
  let priceImpactHint :=
    if sizeCategory = "small" then "expected_low"
    else if sizeCategory = "medium" then "monitor"
    else "high_attention"
  let assetIn ← getF alloc "asset_in"
  let assetOut ← getF alloc "asset_out"
  let venueV ← getF alloc "venue"
  let venueStr := match venueV with | .str s => s | _ => jsDisplay venueV
  pure {
    index := idx
    description := "Execute " ++ actionType ++ " from " ++ jsDisplay assetIn ++ " → " ++
      jsDisplay assetOut ++ " on " ++ jsDisplay venueV
    action_type := actionType
    target := "0xRouterOrProtocol" ++ padStart2 idx ++ "..."
    data := "0x" ++ natToHex (1000 + idx) ++ "deadbeef"
    value := "0"
    gas_limit_hint := if actionType = "swap" then 220000 else 350000
    meta := {
      chain := chain
      venue := venueStr
      asset_in := assetIn
      asset_out := assetOut
      notional_estimate_usd := amountIn
      size_category := sizeCategory
      price_impact_hint := priceImpactHint
      slippage_bps := slippageBps
      deadline_seconds := deadlineSeconds }
  }

/-- The `txs.reduce` venue grouping (`src/seller.js:715`): object keys in
insertion order. -/
def groupByVenue (txs : List Tx) : List (String × List ℕ) :=
  txs.foldl
    (fun acc tx =>
      if acc.any (fun p => p.1 == tx.meta.venue) then
        acc.map (fun p => if p.1 == tx.meta.venue then (p.1, p.2 ++ [tx.index]) else p)
      else acc ++ [(tx.meta.venue, [tx.index])])
    []

/-- `handleExecutionBundle(input)` (`src/seller.js:637`). -/
def handleExecutionBundle (input : JSVal) : JSM BundleOut := do
  let errors ← validateExecutionBundle input
  let valid := errors.isEmpty
  let chain := jsOr (← getF input "chain") (.str "unknown")
  let slippageBps := jsNullish (← getF input "slippage_bps") (.num 50)
  let deadlineSeconds := jsNullish (← getF input "deadline_seconds") (.num 900)
  let preferBatching :=
    match ← getF input "prefer_batching" with
    | .bool b => b
    | _ => true
  let allocs :=
    match ← getF input "desired_allocations" with
    | .arr xs => xs
    | _ => []
  let txs ← mapIdxJSM (fun idx alloc => buildTx chain slippageBps deadlineSeconds idx alloc)
    0 allocs
  let estimatedGasUsd : ℚ := roundTo2 ((txs.length : ℚ) * 1.75)
  pure {
    job_name := "execution_bundle_builder"
    chain := chain
    slippage_bps_applied := slippageBps
    deadline_seconds_applied := deadlineSeconds
    prefer_batching := preferBatching
    estimated_gas_cost_usd := estimatedGasUsd
    txs := txs
    batching_plan :=
      if preferBatching then
        { strategy := "batch_by_venue"
          rationale := "Group interactions per venue to reduce overhead and limit nonce management complexity."
          tentative_batches := some (groupByVenue txs) }
      else
        { strategy := "sequential_execution"
          rationale := "Execute in deterministic order for simpler monitoring and rollback reasoning."
          tentative_batches := none }
    operational_risks := [
      "Route selection is synthetic; validate routers and paths before signing.",
      "Ensure slippage and deadlines are aligned with current liquidity conditions.",
      "Run a dry-run / simulation on test environment if changing venues or assets."]
    validation_passed := valid
    validation_errors := errors
  }

-- ---------- JOB 4 computer: position_health_monitor ----------

structure Snapshot where
  protocol : JSVal
  pool_address : JSVal
  position_id : JSVal
  chain : JSVal
  synthetic_health_score : ℚ
  configured_health_threshold : JSVal
  liquidation_buffer_pct : ℚ
  breach : Bool
  severity : String
  issues : List String
  recommended_actions : List String

structure PortfolioSummary where
  total_positions : ℕ
  breached_positions : ℕ
  near_threshold_positions : ℕ
  monitoring_frequency_minutes : JSVal
  monitoring_channel : JSVal
  portfolio_risk_commentary : String

/-- `timestamp_utc` omitted; see the header. -/
structure HealthOut where
  job_name : String
  chain : JSVal
  positions : List Snapshot
  portfolio_summary : PortfolioSummary
  validation_passed : Bool
  validation_errors : List VErr

/-- Body of the `positions.map` (`src/seller.js:804`).  `threshold + 10`
and `threshold + 5` use JS `+` (string concatenation when the threshold is
a string); `threshold - 10` and the comparisons are numeric. -/
def buildSnapshot (chain : JSVal) (pos : JSVal) : JSM Snapshot := do
  let threshold ← getF pos "health_threshold"
  let baseHealth : ℚ :=
    if jGe (toNum threshold) (some 80) then 72
    else if jGe (toNum threshold) (some 60) then 78
    else 85
  let liquidationBufferPct : ℚ :=
    if baseHealth ≥ 80 then 30 else if baseHealth ≥ 70 then 20 else 10
  let breach := jLt (some baseHealth) (toNum threshold)
  let severity :=
    if jGe (some baseHealth) (toNum (jsAddNum threshold 10)) then "info"
    else if jGe (some baseHealth) (toNum threshold) then "watch"
    else if jGe (some baseHealth) (jSub (toNum threshold) (some 10)) then "warning"
    else "critical"
  let issues : List String :=
    if breach then ["Synthetic breach: health score below configured threshold."]
    else if severity = "warning" then
      ["Health score is within 10 points of threshold; risk is non-trivial."]
    else if severity = "watch" then ["Health score only slightly above threshold."]
    else []
  let recommendedActions : List String :=
    (if breach then
      ["Evaluate options: partial deleveraging, collateral top-up, or closing position."]
    else if severity = "warning" then
      ["Increase monitoring frequency and pre-plan deleveraging triggers."]
    else if severity = "watch" then
      ["Define automated alert if health score drops by additional 5–10 points."]
    else
      ["No immediate action suggested; maintain baseline monitoring."]) ++
    ["If using perps/options elsewhere, tag this position as reference and consider offsetting directional risk."]
  let protocol ← getF pos "protocol"
  let poolAddress ← getF pos "pool_address"
  let positionId ← getF pos "position_id"
  pure {
    protocol := protocol
    pool_address := poolAddress
    position_id := positionId
    chain := chain
    synthetic_health_score := baseHealth
    configured_health_threshold := threshold
    liquidation_buffer_pct := liquidationBufferPct
    breach := breach
    severity := severity
    issues := issues
    recommended_actions := recommendedActions
  }

/-- `handlePositionHealth(input)` (`src/seller.js:796`). -/
def handlePositionHealth (input : JSVal) : JSM HealthOut := do
  let errors ← validatePositionHealth input
  let valid := errors.isEmpty
  let chain := jsOr (← getF input "chain") (.str "unknown")
  let positions :=
    match ← getF input "positions" with
    | .arr xs => xs
    | _ => []
  let checkFreq := jsOr (← getF input "check_frequency_minutes") (.num 15)
  let snapshots ← mapJSM (buildSnapshot chain) positions
  let totalPositions := snapshots.length
  let breachedCount := (snapshots.filter (fun s => s.breach)).length
  let nearThresholdCount := (snapshots.filter (fun s =>
    ¬ s.breach ∧ jLt (some s.synthetic_health_score)
      (toNum (jsAddNum s.configured_health_threshold 5)))).length
  let notifyChannel ← getF input "notify_channel"
  pure {
    job_name := "position_health_monitor"
    chain := chain
    positions := snapshots
    portfolio_summary := {
      total_positions := totalPositions
      breached_positions := breachedCount
      near_threshold_positions := nearThresholdCount
      monitoring_frequency_minutes := checkFreq
      monitoring_channel := notifyChannel
      portfolio_risk_commentary :=
        if totalPositions = 0 then "No positions provided; nothing to monitor."
        else if breachedCount > 0 then
          "One or more positions are synthetically below threshold; define clear deleveraging / unwind playbook."
        else if nearThresholdCount > 0 then
          "Some positions are hovering near risk guardrail; tighten alerting and review sizing."
        else
          "All positions have comfortable synthetic health margins given the configured thresholds." }
    validation_passed := valid
    validation_errors := errors
  }

-- ---------- Date model ----------

/-- Days since 1970-01-01 of a civil date (proleptic Gregorian). -/
def daysFromCivil (y m d : ℤ) : ℤ :=
  let yAdj := if m ≤ 2 then y - 1 else y
  let era := Int.fdiv yAdj 400
  let yoe := yAdj - era * 400
  let mp := Int.emod (m + 9) 12
  let doy := (153 * mp + 2) / 5 + d - 1
  let doe := yoe * 365 + yoe / 4 - yoe / 100 + doy
  era * 146097 + doe - 719468

/-- Civil date of a days-since-epoch count (inverse of `daysFromCivil`). -/
def civilFromDays (z0 : ℤ) : ℤ × ℤ × ℤ :=
  let z := z0 + 719468
  let era := Int.fdiv z 146097
  let doe := z - era * 146097
  let yoe := (doe - doe / 1460 + doe / 36524 - doe / 146096) / 365
  let y := yoe + era * 400
  let doy := doe - (365 * yoe + yoe / 4 - yoe / 100)
  let mp := (5 * doy + 2) / 153
  let d := doy - (153 * mp + 2) / 5 + 1
  let m := mp + (if mp < 10 then 3 else -9)
  (if m ≤ 2 then y + 1 else y, m, d)

def isLeapYear (y : ℤ) : Bool :=
  (Int.emod y 4 = 0 ∧ Int.emod y 100 ≠ 0) ∨ Int.emod y 400 = 0

def daysInMonth (y m : ℤ) : ℤ :=
  if m = 2 then (if isLeapYear y then 29 else 28)
  else if m = 4 ∨ m = 6 ∨ m = 9 ∨ m = 11 then 30
  else 31

def digitVal (c : Char) : Option ℕ :=
  if c.isDigit then some (c.toNat - 48) else none

def twoDigits (a b : Char) : Option ℕ := do
  let x ← digitVal a
  let y ← digitVal b
  pure (x * 10 + y)

/-- Millisecond timestamp of a validated Y/M/D H:M:S(.ms) UTC reading. -/
def isoMs (y mo d h mi s ms : ℕ) : Option ℚ :=
  if 1 ≤ mo ∧ mo ≤ 12 ∧ 1 ≤ d ∧ (d : ℤ) ≤ daysInMonth y mo ∧ h ≤ 23 ∧ mi ≤ 59 ∧ s ≤ 59 then
    some ((((daysFromCivil y mo d) * 86400000 + h * 3600000 + mi * 60000 + s * 1000 + ms : ℤ) : ℚ))
  else none

/-- `Date.parse` for the ISO format `YYYY-MM-DDTHH:MM:SS(.mmm)?Z` used by
this system's timestamps; other inputs are modelled as an invalid date
(the JS host accepts further formats none of which this program relies
on). -/
def parseIsoDate (str : String) : Option ℚ :=
  match str.data with
  | [y1, y2, y3, y4, '-', m1, m2, '-', d1, d2, 'T',
     h1, h2, ':', n1, n2, ':', s1, s2, 'Z'] => do
    let y ← twoDigits y1 y2
    let y' ← twoDigits y3 y4
    let mo ← twoDigits m1 m2
    let d ← twoDigits d1 d2
    let h ← twoDigits h1 h2
    let mi ← twoDigits n1 n2
    let s ← twoDigits s1 s2
    isoMs (y * 100 + y') mo d h mi s 0
  | [y1, y2, y3, y4, '-', m1, m2, '-', d1, d2, 'T',
     h1, h2, ':', n1, n2, ':', s1, s2, '.', f1, f2, f3, 'Z'] => do
    let y ← twoDigits y1 y2
    let y' ← twoDigits y3 y4
    let mo ← twoDigits m1 m2
    let d ← twoDigits d1 d2
    let h ← twoDigits h1 h2
    let mi ← twoDigits n1 n2
    let s ← twoDigits s1 s2
    let a ← digitVal f1
    let b ← digitVal f2
    let c ← digitVal f3
    isoMs (y * 100 + y') mo d h mi s (a * 100 + b * 10 + c)
  | _ => none

/-- Truncation toward zero of a rational (JS `ToIntegerOrInfinity`). -/
def ratTrunc (q : ℚ) : ℤ := q.num / (q.den : ℤ)

/-- The time value of `new Date(v)`: ISO parse for strings, `TimeClip` of
the numeric coercion otherwise; arrays/objects (string round-trip in JS)
are modelled as invalid. -/
def jsDateOf : JSVal → Option ℚ
  | .str s => parseIsoDate s
  | .num q =>
    let t := ratTrunc q
    if t.natAbs ≤ 8640000000000000 then some (t : ℚ) else none
  | .bool b => some (if b then 1 else 0)
  | .null => some 0
  | _ => none

def pad2 (n : ℕ) : String := if n < 10 then "0" ++ toString n else toString n

def pad3 (n : ℕ) : String :=
  if n < 10 then "00" ++ toString n else if n < 100 then "0" ++ toString n else toString n

def pad4 (n : ℕ) : String :=
  if n < 10 then "000" ++ toString n
  else if n < 100 then "00" ++ toString n
  else if n < 1000 then "0" ++ toString n
  else toString n

/-- `Date.prototype.toISOString` on a finite time value (years 0–9999,
which covers every reachable timestamp). -/
def isoOfMs (msq : ℚ) : String :=
  let t := ratTrunc msq
  let day := Int.fdiv t 86400000
  let msod := (t - day * 86400000).toNat
  let (y, mo, d) := civilFromDays day
  pad4 y.toNat ++ "-" ++ pad2 mo.toNat ++ "-" ++ pad2 d.toNat ++ "T" ++
    pad2 (msod / 3600000) ++ ":" ++ pad2 (msod / 60000 % 60) ++ ":" ++
    pad2 (msod / 1000 % 60) ++ "." ++ pad3 (msod % 1000) ++ "Z"

-- ---------- JOB 5 computer: strategy_backtest_report ----------

/-- The numeric core of `handleBacktest` (`src/seller.js:935`–`983`),
together with the values the rest of the function reads. -/
structure BacktestStats where
  days : ℚ
  complexityFactor : ℚ
  baseAnnualReturn : ℚ
  syntheticEdge : ℚ
  syntheticDrag : ℚ
  netAnnualReturn : ℚ
  periodReturn : ℚ
  endEquity : JNum
  maxDrawdownPct : ℚ
  volatilityPct : ℚ
  totalReturnPct : ℚ
  annualizedReturnPct : ℚ

structure BacktestEnv where
  chain : JSVal
  strategyName : JSVal
  initialCapital : JSVal
  actions : List JSVal
  startMs : Option ℚ
  endMs : Option ℚ
  errors : List VErr

/-- Lines 932–983 of `handleBacktest`: validation, field defaults, date
span, synthetic return/risk numbers.  `strategyName.toLowerCase()` throws
on a truthy non-string strategy name, as in the source. -/
def backtestStatsOf (input : JSVal) : JSM (BacktestEnv × BacktestStats) := do
  let errors ← validateBacktest input
  let chain := jsOr (← getF input "chain") (.str "unknown")
  let strategyName := jsOr (← getF input "strategy_name") (.str "unknown")
  let initialCapitalV := jsOr (← getF input "initial_capital_usd") (.num 0)
  let actions :=
    match ← getF input "simulated_actions" with
    | .arr xs => xs
    | _ => []
  let startMs := jsDateOf (← getF input "backtest_start_utc")
  let endMs := jsDateOf (← getF input "backtest_end_utc")
  let days : ℚ :=
    match startMs, endMs with
    | some s, some e => max 1 ((roundJS ((e - s) / 86400000) : ℤ) : ℚ)
    | _, _ => 30
  let complexityFactor : ℚ := min 3 (max 0.5 ((actions.length : ℚ) / 10))
  let baseAnnualReturn : ℚ :=
    if complexityFactor ≤ 0.8 then 0.08
    else if complexityFactor ≤ 1.5 then 0.18
    else 0.3
  let snLower ← jsToLowerCase strategyName
  let syntheticEdge : ℚ :=
    if strIncludes snLower "delta-neutral" || strIncludes snLower "market-neutral" then 0.02 else 0
  let syntheticDrag : ℚ :=
    if strIncludes snLower "degen" || strIncludes snLower "leveraged" then 0.05 else 0
  let netAnnualReturn := baseAnnualReturn + syntheticEdge - syntheticDrag
  let periodReturn := netAnnualReturn * (days / 365)
  let capN := toNum initialCapitalV
  let endEquity := jMul capN (some (1 + periodReturn))
  let maxDrawdownPct : ℚ :=
    min 60 (max 8 (25 * complexityFactor + (if syntheticDrag > 0 then 10 else 0)))
  let volatilityPct : ℚ :=
    min 80 (max 12 (30 * complexityFactor + (if syntheticDrag > 0 then 10 else 0)))
  let totalReturnPct : ℚ :=
    match capN, endEquity with
    | some c, some e => if 0 < c then ((e - c) / c) * 100 else 0
    | _, _ => 0
  let annualizedReturnPct := periodReturn * (365 / days) * 100
  pure (⟨chain, strategyName, initialCapitalV, actions, startMs, endMs, errors⟩,
    ⟨days, complexityFactor, baseAnnualReturn, syntheticEdge, syntheticDrag,
     netAnnualReturn, periodReturn, endEquity, maxDrawdownPct, volatilityPct,
     totalReturnPct, annualizedReturnPct⟩)

structure EquityPoint where
  timestamp_utc : String
  equity_usd : JNum

/-- One sample of the equity curve (`src/seller.js:986`):
`new Date(start + f*(end-start)).toISOString()` throws a `RangeError` when
either boundary is an invalid date. -/
def equityCurvePoint (startMs endMs : Option ℚ) (capN : JNum) (periodReturn : ℚ)
    (f : ℚ) : JSM EquityPoint :=
  match startMs, endMs with
  | some s, some e =>
    .ok { timestamp_utc := isoOfMs (s + f * (e - s))
          equity_usd := jRoundTo2 (jMul capN (some (1 + periodReturn * f))) }
  | _, _ => .error (.rangeError "Invalid time value")

/-- `handleBacktest(input)` (`src/seller.js:931`).  The source's final
object literal uses the shorthand properties `sharpe_ratio_estimate`,
`best_day_return_pct`, `worst_day_return_pct` and `equity_curve`, but the
locals are named `sharpeRatioEstimate`, `bestDayReturnPct`,
`worstDayReturnPct`, `equityCurve`: evaluating the literal raises a
`ReferenceError` at the first unbound shorthand, so the function can never
return a deliverable (result type `Empty`). -/
def handleBacktest (input : JSVal) : JSM Empty := do
  let (env, st) ← backtestStatsOf input
  let _sharpeRatioEstimate : String :=
    if 0 < st.volatilityPct then toFixed2 ((st.annualizedReturnPct - 5) / st.volatilityPct)
    else "0.00"
  let _equityCurve ← mapJSM
    (equityCurvePoint env.startMs env.endMs (toNum env.initialCapital) st.periodReturn)
    [0, 0.25, 0.5, 0.75, 1]
  let _bestDayReturnPct := toFixed2 (st.volatilityPct / 4)
  let _worstDayReturnPct := toFixed2 (-st.volatilityPct / 3)
  let _riskCommentary : List String := [
    (if 0 ≤ st.totalReturnPct then
      "Synthetic results show profitable behavior over the backtest window, but with non-trivial drawdown risk."
    else
      "Synthetic results show underperformance; consider whether the edge is structural or path-dependent."),
    "Max drawdown is modeled at ~" ++ toFixed1 st.maxDrawdownPct ++ "% with volatility ~" ++
      toFixed1 st.volatilityPct ++
      "%. This implies that realized PnL can deviate substantially from average return.",
    "Use this backtest as a sanity check on position sizing and risk budget, not as a guarantee of forward returns."]
  let _assumptions : String × String × String :=
    (toFixed2 (st.baseAnnualReturn * 100), toFixed2 (st.syntheticEdge * 100),
     toFixed2 (st.syntheticDrag * 100))
  .error (.refError "sharpe_ratio_estimate")

-- ---------- Job router ----------

structure UnknownOut where
  job_name : String
  validation_passed : Bool
  validation_errors : List VErr
  message : Option String

inductive Deliverable where
  | scan (out : ScanOut)
  | plan (out : PlanOut)
  | bundle (out : BundleOut)
  | health (out : HealthOut)
  | unknown (out : UnknownOut)

/-- The deliverable for missing / non-object metadata
(`src/seller.js:1051`). -/
def missingMetadataDeliverable : UnknownOut :=
  { job_name := "unknown"
    validation_passed := false
    validation_errors := [validationError "Missing job metadata" "metadata"]
    message := none }

/-- The default-branch deliverable naming the unmatched kind
(`src/seller.js:1074`). -/
def unknownKindDeliverable (jobName : JSVal) : UnknownOut :=
  { job_name := "unknown"
    validation_passed := false
    validation_errors :=
      [validationError ("No handler implemented for job name: " ++ jsDisplay jobName) "job_name"]
    message := some "Unknown job type. Please ensure the job name matches one of the supported offerings." }

/-- `routeJobDeliverable(metadata)` (`src/seller.js:1050`). -/
def routeJobDeliverable (metadata : JSVal) : JSM Deliverable :=
  if ¬ metadata.truthy ∨ ¬ metadata.typeofIsObject then
    .ok (.unknown missingMetadataDeliverable)
  else
    let jobName := fieldOf metadata "name"
    let requirement := jsOr (fieldOf metadata "requirement") (.obj [])
    if jobName.strEq "yield_scan_and_ranking" then
      (handleYieldScan requirement).map .scan
    else if jobName.strEq "portfolio_yield_allocation_plan" then
      (handlePortfolioPlan requirement).map .plan
    else if jobName.strEq "execution_bundle_builder" then
      (handleExecutionBundle requirement).map .bundle
    else if jobName.strEq "position_health_monitor" then
      (handlePositionHealth requirement).map .health
    else if jobName.strEq "strategy_backtest_report" then
      (handleBacktest requirement).map (fun e => e.elim)
    else
      .ok (.unknown (unknownKindDeliverable jobName))

/-- Whether a `metadata.name` value matches one of the five dispatched
kinds. -/
def recognizedJobName (v : JSVal) : Bool :=
  v.strEq "yield_scan_and_ranking" || v.strEq "portfolio_yield_allocation_plan" ||
  v.strEq "execution_bundle_builder" || v.strEq "position_health_monitor" ||
  v.strEq "strategy_backtest_report"

-- ---------- Negotiation state machine (`onNewTask`) ----------

/-- The in-memory `jobMetadata` map, keyed by job id in insertion order. -/
abbrev MetaCache := List (String × JSVal)

def cacheGet (cache : MetaCache) (jobId : String) : JSVal :=
  (((cache.find? (fun p => p.1 == jobId)).map (fun p => p.2)).getD .undefined)

def cachePut (cache : MetaCache) (jobId : String) (v : JSVal) : MetaCache :=
  if cache.any (fun p => p.1 == jobId) then
    cache.map (fun p => if p.1 == jobId then (jobId, v) else p)
  else cache ++ [(jobId, v)]

def cacheErase (cache : MetaCache) (jobId : String) : MetaCache :=
  cache.filter (fun p => ¬ p.1 == jobId)

/-- A pending memo on a phase event: `{status, nextPhase,
structuredContent?, content?}`. -/
structure PhaseMemo where
  status : JSVal
  nextPhase : JSVal
  structuredContent : JSVal
  content : JSVal

/-- The metadata lookup order of the delivery branch
(`src/seller.js:1153`–`1167`): cached entry, then truthy structured
content, then a parsed serialized content string accepted only when the
parse succeeds and yields a truthy value with a truthy `name`. -/
def resolveMetadata (cache : MetaCache) (jobId : String) (memo : PhaseMemo)
    (parseJson : String → Option JSVal) : JSVal :=
  let m1 := cacheGet cache jobId
  let m2 := if ¬ m1.truthy ∧ memo.structuredContent.truthy then memo.structuredContent else m1
  if ¬ m2.truthy then
    match memo.content with
    | .str s =>
      match parseJson s with
      | some parsed =>
        if parsed.truthy ∧ (fieldOf parsed "name").truthy then parsed else m2
      | none => m2
    | _ => m2
  else m2

/-- The minimal error deliverable of the fallback submission
(`src/seller.js:1188`); `errMsg` is the host's `String(err)` for the first
failure. -/
def fallbackDeliverable (errMsg : String) : Deliverable :=
  .unknown {
    job_name := "unknown"
    validation_passed := false
    validation_errors :=
      [validationError "Delivery failed internally" "internal", validationError errMsg "exception"]
    message := none }

/-- Result of one run of the delivery branch.  `submissions` lists the
`job.deliver` calls attempted in order; `raised` is an exception that
escaped the handler (only a router throw, since submission failures are
caught); `fallbackLoggedOnly` records a failed fallback that was only
logged. -/
structure DeliveryResult where
  metadataResolved : JSVal
  submissions : List Deliverable
  cacheAfter : MetaCache
  raised : Option JSErr
  fallbackLoggedOnly : Bool

/-- The `nextPhase === 3` branch (`src/seller.js:1150`–`1202`).
`deliverOk`/`fallbackOk` are the transport's responses to the two possible
`job.deliver` calls. -/
def onDeliveryPhase (cache : MetaCache) (jobId : String) (memo : PhaseMemo)
    (parseJson : String → Option JSVal) (deliverOk fallbackOk : Bool)
    (errMsg : String) : DeliveryResult :=
  let metadata := resolveMetadata cache jobId memo parseJson
  match routeJobDeliverable metadata with
  | .error e =>
    { metadataResolved := metadata, submissions := [], cacheAfter := cache
      raised := some e, fallbackLoggedOnly := false }
  | .ok deliverable =>
    if deliverOk then
      { metadataResolved := metadata, submissions := [deliverable]
        cacheAfter := cacheErase cache jobId, raised := none, fallbackLoggedOnly := false }
    else
      { metadataResolved := metadata
        submissions := [deliverable, fallbackDeliverable errMsg]
        cacheAfter := cache, raised := none, fallbackLoggedOnly := ¬ fallbackOk }

inductive TaskOutcome where
  | noPendingMemo
  | accepted (cacheAfter : MetaCache)
  | acceptRejected (cacheAfter : MetaCache)
  | delivery (r : DeliveryResult)
  | unhandledPhase

/-- `onNewTask` (`src/seller.js:1115`): ignore non-`PENDING` memos; on
`nextPhase === 1` cache named structured content and respond (acceptance
may fail, turning into a rejection response); on `nextPhase === 3` run the
delivery branch; otherwise log only. -/
def onNewTask (cache : MetaCache) (jobId : String) (memo : Option PhaseMemo)
    (parseJson : String → Option JSVal) (respondOk deliverOk fallbackOk : Bool)
    (errMsg : String) : TaskOutcome :=
  match memo with
  | none => .noPendingMemo
  | some m =>
    if ¬ m.status.strEq "PENDING" then .noPendingMemo
    else if m.nextPhase.numEq 1 then
      let cache2 :=
        if m.structuredContent.truthy ∧ (fieldOf m.structuredContent "name").truthy then
          cachePut cache jobId m.structuredContent
        else cache
      if respondOk then .accepted cache2 else .acceptRejected cache2
    else if m.nextPhase.numEq 3 then
      .delivery (onDeliveryPhase cache jobId m parseJson deliverOk fallbackOk errMsg)
    else .unhandledPhase

-- ---------- Claim-side definitions (from the spec's words) ----------

/-- The utility score as the spec states it: `estimated_apy - 0.2 *
risk_score` (conservative), `1.3 * estimated_apy - 0.1 * risk_score`
(aggressive), `estimated_apy - 0.15 * risk_score` (balanced and any other
value).  This is the refinement target to compare against the source
comparator `scanUtilityCmp`. -/
def claimUtility (rt : JSVal) (o : Opportunity) : ℚ :=
  if rt.strEq "conservative" then o.estimated_apy - 0.2 * o.risk_score
  else if rt.strEq "aggressive" then 1.3 * o.estimated_apy - 0.1 * o.risk_score
  else o.estimated_apy - 0.15 * o.risk_score

/-- `descendingBy f l`: consecutive elements of `l` are in weakly
decreasing `f`-order. -/
def descendingBy {α : Type} (f : α → ℚ) : List α → Bool
  | [] => true
  | [_] => true
  | a :: b :: l => decide (f b ≤ f a) && descendingBy f (b :: l)

/-- The lockup adjustment as the spec states it: halve the experimental
weight and redistribute the freed weight (the other half) equally to core
and satellite.  Refinement target for `planAdjustedWeights`. -/
def specLockupAdjustedWeights (rt prefs : JSVal) : ℚ × ℚ × ℚ :=
  let (coreWeight, satelliteWeight, experimentalWeight) := planBaseWeights rt
  if (fieldOf prefs "allow_lockups").truthy then
    (coreWeight, satelliteWeight, experimentalWeight)
  else
    let freed := experimentalWeight * 0.5
    (coreWeight + freed / 2, satelliteWeight + freed / 2, experimentalWeight * 0.5)

-- ---------- Generic lemmas ----------

theorem jsInsert_length {α : Type} (cmp : α → α → ℚ) (a : α) (l : List α) :
    (jsInsert cmp a l).length = l.length + 1 := by
  induction l with
  | nil => simp [jsInsert]
  | cons b rest ih =>
    by_cases h : cmp b a ≤ 0 <;> simp [jsInsert, h, ih]

theorem jsInsert_mem {α : Type} (cmp : α → α → ℚ) (a x : α) (l : List α) :
    x ∈ jsInsert cmp a l ↔ x = a ∨ x ∈ l := by
  induction l with
  | nil => simp [jsInsert]
  | cons b rest ih =>
    by_cases h : cmp b a ≤ 0
    · rw [jsInsert, if_pos h]
      simp only [List.mem_cons, ih]
      tauto
    · rw [jsInsert, if_neg h]
      simp [List.mem_cons]

theorem jsSortBy_length {α : Type} (cmp : α → α → ℚ) (l : List α) :
    (jsSortBy cmp l).length = l.length := by
  suffices h : ∀ acc : List α,
      (l.foldl (fun acc x => jsInsert cmp x acc) acc).length = l.length + acc.length by
    simpa using h []
  induction l with
  | nil => simp
  | cons a rest ih =>
    intro acc
    simp [List.foldl_cons, ih, jsInsert_length]
    omega

theorem jsSortBy_mem {α : Type} (cmp : α → α → ℚ) (x : α) (l : List α) :
    x ∈ jsSortBy cmp l ↔ x ∈ l := by
  suffices h : ∀ acc : List α,
      (x ∈ l.foldl (fun acc x => jsInsert cmp x acc) acc ↔ x ∈ l ∨ x ∈ acc) by
    simpa using h []
  induction l with
  | nil => simp
  | cons a rest ih =>
    intro acc
    simp [List.foldl_cons, ih, jsInsert_mem]
    tauto

theorem mapJSM_ok_length {α β : Type} (f : α → JSM β) (l : List α) (ys : List β)
    (h : mapJSM f l = .ok ys) : ys.length = l.length := by
  induction l generalizing ys with
  | nil => simp [mapJSM] at h; simp [← h]
  | cons a rest ih =>
    cases h1 : f a with
    | error e => simp [mapJSM, h1] at h
    | ok b =>
      cases h2 : mapJSM f rest with
      | error e => simp [mapJSM, h1, h2] at h
      | ok bs =>
        simp [mapJSM, h1, h2] at h
        simp [← h, ih bs h2]

theorem mapJSM_ok_mem {α β : Type} (f : α → JSM β) (l : List α) (ys : List β)
    (h : mapJSM f l = .ok ys) : ∀ y ∈ ys, ∃ a ∈ l, f a = .ok y := by
  induction l generalizing ys with
  | nil => simp [mapJSM] at h; simp [h]
  | cons a rest ih =>
    cases h1 : f a with
    | error e => simp [mapJSM, h1] at h
    | ok b =>
      cases h2 : mapJSM f rest with
      | error e => simp [mapJSM, h1, h2] at h
      | ok bs =>
        simp [mapJSM, h1, h2] at h
        intro y hy
        rw [← h] at hy
        rcases List.mem_cons.mp hy with hyb | hybs
        · exact ⟨a, by simp, by simp [h1, hyb]⟩
        · rcases ih bs h2 y hybs with ⟨a', ha', hfa'⟩
          exact ⟨a', by simp [ha'], hfa'⟩

theorem flatten_length_of_all_three {α : Type} (ls : List (List α))
    (h : ∀ x ∈ ls, x.length = 3) : ls.flatten.length = 3 * ls.length := by
  induction ls with
  | nil => simp
  | cons x rest ih =>
    simp only [List.flatten_cons, List.length_append, List.length_cons]
    rw [h x (by simp), ih (fun y hy => h y (by simp [hy]))]
    ring

/-- Evaluation bridge for witnesses: a predicate that holds on every `ok`
result of a computation maps an `ok` computation to `ok true`. -/
theorem except_map_ok_of {α : Type} {x : JSM α} {p : α → Bool}
    (hAll : ∀ out, x = .ok out → p out = true) (hOk : x.isOk = true) :
    x.map p = .ok true := by
  cases hX : x with
  | error e => rw [hX] at hOk; simp [Except.isOk, Except.toBool] at hOk
  | ok a => simp [hX, hAll a hX]

-- ---------- Yield Scanner shape lemmas ----------

theorem buildOpportunity_ok_bounds (chain rt lookback : JSVal) (bias : ℚ × ℚ)
    (chainRisk : ℚ) (tvlMid tvlHigh : JNum) (sym : JSVal) (t : String)
    (v : ScanVariant) (o : Opportunity)
    (h : buildOpportunity chain rt lookback bias chainRisk tvlMid tvlHigh sym t v = .ok o) :
    5 ≤ o.risk_score ∧ o.risk_score ≤ 95 ∧ (0.1 : ℚ) ≤ o.estimated_apy := by
  cases h2 : jsSliceStr (.str v.protocol) 6 with
  | error e => simp [buildOpportunity, h2] at h
  | ok s6 =>
    cases h1 : jsSliceStr sym 4 with
    | error e => simp [buildOpportunity, h1, h2] at h
    | ok s4 =>
      simp only [buildOpportunity, h1, h2, jsm_ok_bind, jsm_pure, Except.ok.injEq] at h
      refine ⟨?_, ?_, ?_⟩
      · rw [← h]
        exact le_max_left _ _
      · rw [← h]
        exact max_le (by norm_num) (min_le_left _ _)
      · rw [← h]
        exact le_max_left _ _

theorem scanAsset_ok_shape (chain rt lookback : JSVal) (bias : ℚ × ℚ) (chainRisk : ℚ)
    (minTvl : JSVal) (sym : JSVal) (opps : List Opportunity)
    (h : scanAsset chain rt lookback bias chainRisk minTvl sym = .ok opps) :
    opps.length = 3 ∧
      ∀ o ∈ opps, 5 ≤ o.risk_score ∧ o.risk_score ≤ 95 ∧ (0.1 : ℚ) ≤ o.estimated_apy := by
  cases hc : classifyAsset sym with
  | error e => simp [scanAsset, hc] at h
  | ok t =>
    simp only [scanAsset, hc, jsm_ok_bind] at h
    constructor
    · rw [mapJSM_ok_length _ _ _ h]
      rfl
    · intro o ho
      rcases mapJSM_ok_mem _ _ _ h o ho with ⟨v, _, hv⟩
      exact buildOpportunity_ok_bounds _ _ _ _ _ _ _ _ _ _ _ hv

theorem handleYieldScan_ok_shape (input : JSVal) (out : ScanOut)
    (h : handleYieldScan input = .ok out) :
    out.opportunities_ranked.length = 3 * out.assets.length ∧
      ∀ o ∈ out.opportunities_ranked,
        5 ≤ o.risk_score ∧ o.risk_score ≤ 95 ∧ (0.1 : ℚ) ≤ o.estimated_apy := by
  cases hv : validateYieldScan input with
  | error e => simp [handleYieldScan, hv] at h
  | ok errs =>
    have hnn : input.isNullish = false := by
      cases input <;> simp_all [validateYieldScan, getF, isNullish]
    simp only [handleYieldScan, hv, getF_ok_of_not_isNullish hnn, jsm_ok_bind] at h
    cases hcr : chainRiskFactor (jsOr (fieldOf input "chain") (.str "unknown")) with
    | error e => simp [hcr] at h
    | ok cr =>
      simp only [hcr, jsm_ok_bind] at h
      cases hmap : mapJSM
          (scanAsset (jsOr (fieldOf input "chain") (.str "unknown"))
            (jsOr (fieldOf input "risk_tolerance") (.str "balanced"))
            (jsOr (fieldOf input "lookback_hours") (.num 24))
            (riskToleranceBias (jsOr (fieldOf input "risk_tolerance") (.str "balanced"))) cr
            (jsOr (fieldOf input "min_tvl_usd") (.num 0)))
          (match fieldOf input "assets" with | .arr xs => xs | _ => []) with
      | error e => simp only [hmap, jsm_err_bind] at h; exact absurd h (by simp)
      | ok oppLists =>
        simp only [hmap, jsm_ok_bind, jsm_pure, Except.ok.injEq] at h
        have hlen := mapJSM_ok_length _ _ _ hmap
        have hmem := mapJSM_ok_mem _ _ _ hmap
        constructor
        · rw [← h]
          show (jsSortBy _ oppLists.flatten).length = 3 * _
          rw [jsSortBy_length, flatten_length_of_all_three, hlen]
          intro x hx
          rcases hmem x hx with ⟨a, _, ha⟩
          exact (scanAsset_ok_shape _ _ _ _ _ _ _ _ ha).1
        · intro o ho
          rw [← h] at ho
          have ho2 : o ∈ oppLists.flatten := (jsSortBy_mem _ _ _).mp ho
          rcases List.mem_flatten.mp ho2 with ⟨x, hx, hox⟩
          rcases hmem x hx with ⟨a, _, ha⟩
          exact (scanAsset_ok_shape _ _ _ _ _ _ _ _ ha).2 o hox

-- ---------- Concrete fixtures ----------

/-- A fully valid Yield Scanner request with one stablecoin asset on
Ethereum and balanced tolerance. -/
def scanBalancedUsdcInput : JSVal := .obj [
  ("client_agent_id", .str "agent-007"),
  ("chain", .str "ethereum"),
  ("assets", .arr [.str "USDC"]),
  ("risk_tolerance", .str "balanced"),
  ("min_tvl_usd", .num 0),
  ("lookback_hours", .num 24)]

/-- A valid Yield Scanner request except that the assets array contains
`null`. -/
def scanNullAssetInput : JSVal := .obj [
  ("client_agent_id", .str "agent-007"),
  ("chain", .str "base"),
  ("assets", .arr [.null]),
  ("risk_tolerance", .str "balanced"),
  ("min_tvl_usd", .num 100000),
  ("lookback_hours", .num 24)]

/-- A fully valid two-asset aggressive Yield Scanner request. -/
def scanTwoAssetInput : JSVal := .obj [
  ("client_agent_id", .str "agent-007"),
  ("chain", .str "arbitrum"),
  ("assets", .arr [.str "USDC", .str "WETH"]),
  ("risk_tolerance", .str "aggressive"),
  ("min_tvl_usd", .num 250000),
  ("lookback_hours", .num 48)]

/-- A fully valid conservative Yield Scanner request (the `-3` APY bias
drives the low-band stablecoin APY to `0`, exercising the `0.1` floor). -/
def scanConservativeInput : JSVal := .obj [
  ("client_agent_id", .str "agent-007"),
  ("chain", .str "ethereum"),
  ("assets", .arr [.str "USDC"]),
  ("risk_tolerance", .str "conservative"),
  ("min_tvl_usd", .num 0),
  ("lookback_hours", .num 24)]

-- ---------- Claim C1 ----------

/-- Claim C1 (code_bug evidence): on a valid balanced-tolerance scan of
`['USDC']` on `ethereum`, the ranked list's utilities under the claimed
balanced formula are `[3.6, 0.9, 1.2]` — not descending (the medium-risk
venue with utility `0.9` is ranked above the low-risk venue with utility
`1.2`), because the source comparator's balanced branch computes `bUtil`
from `b.estimated_apy` twice instead of using `b.risk_score`. -/
theorem scan_balanced_rank_violates_claim_utility :
    (handleYieldScan scanBalancedUsdcInput).map
      (fun out => (out.opportunities_ranked.map (claimUtility (.str "balanced")),
        descendingBy (claimUtility (.str "balanced")) out.opportunities_ranked)) =
    .ok ([18/5, 9/10, 6/5], false) := by
  have hcmp : ∀ a b : Opportunity, scanUtilityCmp (.str "balanced") a b =
      (b.estimated_apy - b.estimated_apy * 0.15) - (a.estimated_apy - a.risk_score * 0.15) := by
    intro a b
    simp [scanUtilityCmp, strEq]
  have hutil : ∀ o : Opportunity, claimUtility (.str "balanced") o =
      o.estimated_apy - 0.15 * o.risk_score := by
    intro o
    simp [claimUtility, strEq]
  simp [handleYieldScan, scanBalancedUsdcInput, validateYieldScan, fieldOf, jsOr, truthy,
    ensureString, ensureNumber, ensureArray, riskToleranceBias, chainRiskFactor, jsToLowerCase,
    strLower, strIncludes, charsContain, charsStartWith, mapJSM, scanAsset, classifyAsset,
    jsToUpperCase, strUpper, toNum, jMax, jMul, buildOpportunity, jsSliceStr, roundTo1, roundJS,
    buildRiskScore, jGe, jLe, buildRiskBreakdown, fitExplanation, jsSortBy, jsInsert,
    scanUtilityCmp, apyCmp, strEq, hcmp, hutil]
  norm_num [jsInsert, descendingBy, hcmp, hutil]

-- ---------- Claim C7 ----------

/-- Claim C7 (counterexample): an assets array containing `null` makes
`handleYieldScan` throw (at `assetSymbol.slice(0, 4)`), so no `3 × N`
opportunity list is produced for that input. -/
theorem handleYieldScan_throws_on_null_asset :
    handleYieldScan scanNullAssetInput =
      .error (.typeError "Cannot read properties of null (reading slice)") := by
  simp [handleYieldScan, scanNullAssetInput, validateYieldScan, fieldOf, jsOr, truthy,
    ensureString, ensureNumber, ensureArray, riskToleranceBias, chainRiskFactor, jsToLowerCase,
    strLower, strIncludes, charsContain, charsStartWith, mapJSM, scanAsset, classifyAsset,
    jsToUpperCase, strUpper, toNum, jMax, jMul, buildOpportunity, jsSliceStr, strEq]

/-- Decidable form of the C7 shape property: three venues per asset and
every risk score clamped into `[5, 95]`. -/
def scanShapeOk (out : ScanOut) : Bool :=
  (out.opportunities_ranked.length == 3 * out.assets.length) &&
  out.opportunities_ranked.all
    (fun o => decide ((5 : ℚ) ≤ o.risk_score) && decide (o.risk_score ≤ (95 : ℚ)))

/-- Claim C7 (amended): whenever `handleYieldScan` returns (in particular
whenever the assets are all strings), it returns exactly `3 × N` ranked
opportunities for `N` assets, each with risk score in `[5, 95]`; inputs on
which it throws instead (e.g. a `null` asset) produce nothing. -/
theorem scan_count_and_risk_bounds (input : JSVal) (out : ScanOut)
    (h : handleYieldScan input = .ok out) : scanShapeOk out = true := by
  obtain ⟨hlen, hmem⟩ := handleYieldScan_ok_shape input out h
  simp only [scanShapeOk, Bool.and_eq_true, beq_iff_eq, List.all_eq_true]
  exact ⟨hlen, fun o ho => by
    obtain ⟨h5, h95, _⟩ := hmem o ho
    simp [h5, h95]⟩

/-- Witness for C7 at the two-asset aggressive fixture: the handler
returns, and the returned deliverable satisfies the shape property. -/
theorem scan_count_and_risk_bounds_witness :
    (handleYieldScan scanTwoAssetInput).map scanShapeOk = .ok true := by
  refine except_map_ok_of (fun out h => scan_count_and_risk_bounds scanTwoAssetInput out h) ?_
  simp [handleYieldScan, scanTwoAssetInput, validateYieldScan, fieldOf, jsOr, truthy,
    ensureString, ensureNumber, ensureArray, riskToleranceBias, chainRiskFactor, jsToLowerCase,
    strLower, strIncludes, charsContain, charsStartWith, mapJSM, scanAsset, classifyAsset,
    jsToUpperCase, strUpper, toNum, jMax, jMul, buildOpportunity, jsSliceStr, strEq, Except.isOk,
    Except.toBool]

-- ---------- Claim C10 ----------

/-- Decidable form of the C10 floor property. -/
def scanApyFloorOk (out : ScanOut) : Bool :=
  out.opportunities_ranked.all (fun o => decide ((0.1 : ℚ) ≤ o.estimated_apy))

/-- Claim C10: every produced opportunity's `estimated_apy` is at least
`0.1` (the `Math.max(0.1, ...)` floor), for every input on which the
scanner returns. -/
theorem scan_apy_floor (input : JSVal) (out : ScanOut)
    (h : handleYieldScan input = .ok out) : scanApyFloorOk out = true := by
  obtain ⟨_, hmem⟩ := handleYieldScan_ok_shape input out h
  simp only [scanApyFloorOk, List.all_eq_true]
  intro o ho
  obtain ⟨_, _, hfloor⟩ := hmem o ho
  simp [hfloor]

/-- Witness for C10 at the conservative fixture, where the `-3` APY bias
makes the floor bind. -/
theorem scan_apy_floor_witness :
    (handleYieldScan scanConservativeInput).map scanApyFloorOk = .ok true := by
  refine except_map_ok_of (fun out h => scan_apy_floor scanConservativeInput out h) ?_
  simp [handleYieldScan, scanConservativeInput, validateYieldScan, fieldOf, jsOr, truthy,
    ensureString, ensureNumber, ensureArray, riskToleranceBias, chainRiskFactor, jsToLowerCase,
    strLower, strIncludes, charsContain, charsStartWith, mapJSM, scanAsset, classifyAsset,
    jsToUpperCase, strUpper, toNum, jMax, jMul, buildOpportunity, jsSliceStr, strEq, Except.isOk,
    Except.toBool]

-- ---------- Claims C2 and C4 ----------

/-- The C4 fixture: 10,000 USD, a 30-day window, ten simulated actions,
and a strategy name free of the degen / leveraged / delta-neutral /
market-neutral keywords. -/
def backtestValidInput : JSVal := .obj [
  ("client_agent_id", .str "agent-42"),
  ("chain", .str "base"),
  ("strategy_name", .str "stable-rotation-v1"),
  ("backtest_start_utc", .str "2025-01-01T00:00:00Z"),
  ("backtest_end_utc", .str "2025-01-31T00:00:00Z"),
  ("initial_capital_usd", .num 10000),
  ("simulated_actions", .arr [.str "a1", .str "a2", .str "a3", .str "a4", .str "a5",
    .str "a6", .str "a7", .str "a8", .str "a9", .str "a10"])]

/-- Claim C2 (code_bug evidence): `handleBacktest` cannot return a
deliverable for any input.  On the empty object the equity-curve sampling
throws a `RangeError` (`toISOString` on an invalid date); on inputs with
parseable dates the return-object literal itself throws a `ReferenceError`
on the unbound shorthand `sharpe_ratio_estimate` (see `handleBacktest`).
Either way the claim that all five computers return a deliverable carrying
the validation errors fails. -/
theorem handleBacktest_throws_on_empty_object :
    handleBacktest (.obj []) = .error (.rangeError "Invalid time value") := by
  simp [handleBacktest, backtestStatsOf, validateBacktest, fieldOf, jsOr, truthy, ensureString,
    ensureNumber, ensureArray, jsDateOf, jsToLowerCase, strLower, strIncludes,
    charsContain, charsStartWith, toNum, mapJSM, equityCurvePoint]

set_option maxHeartbeats 1000000 in
/-- Claim C4 (code_bug evidence): on the valid 30-day fixture the
internally computed total return rounds to `1.5` percent, exactly the
claimed closed form `0.18 * (30/365) * 100` to one decimal — but
`handleBacktest` throws a `ReferenceError` before any deliverable carrying
`total_return_pct` can exist. -/
theorem handleBacktest_throws_despite_correct_total_return :
    handleBacktest backtestValidInput = .error (.refError "sharpe_ratio_estimate") ∧
    (backtestStatsOf backtestValidInput).map (fun p => roundTo1 p.2.totalReturnPct) =
      .ok (3/2) ∧
    roundTo1 (0.18 * (30 / 365) * 100) = 3/2 := by
  have hs : jsDateOf (.str "2025-01-01T00:00:00Z") = some 1735689600000 := by decide
  have he : jsDateOf (.str "2025-01-31T00:00:00Z") = some 1738281600000 := by decide
  refine ⟨?_, ?_, ?_⟩
  · simp [handleBacktest, backtestStatsOf, validateBacktest, fieldOf, jsOr, truthy, ensureString,
      ensureNumber, ensureArray, hs, he, jsToLowerCase, strLower, strIncludes,
      charsContain, charsStartWith, toNum, mapJSM, equityCurvePoint, backtestValidInput]
  · simp [backtestStatsOf, validateBacktest, fieldOf, jsOr, truthy, ensureString,
      ensureNumber, ensureArray, hs, he, jsToLowerCase, strLower, strIncludes,
      charsContain, charsStartWith, toNum, jMul, backtestValidInput]
    norm_num [roundTo1, roundJS]
  · norm_num [roundTo1, roundJS]

-- ---------- Claim C3 ----------
/-- An input that is an object in the sense of the validators' contract
(plain object or array). -/
def isObjectLike : JSVal → Bool
  | .obj _ => true
  | .arr _ => true
  | _ => false

/-- Every element of the array field `k` (when it is an array) is neither
`null` nor `undefined`. -/
def itemsNonNullish (v : JSVal) (k : String) : Bool :=
  match fieldOf v k with
  | .arr xs => xs.all (fun x => !x.isNullish)
  | _ => true

theorem isNullish_false_of_objectLike {v : JSVal} (h : isObjectLike v = true) :
    v.isNullish = false := by
  cases v <;> simp_all [isObjectLike, isNullish]

theorem mapIdxJSM_bundle_ok (xs : List JSVal) (i : ℕ)
    (h : ∀ x ∈ xs, x.isNullish = false) :
    ∃ ys, mapIdxJSM validateBundleItem i xs = .ok ys := by
  induction xs generalizing i with
  | nil => exact ⟨[], rfl⟩
  | cons x rest ih =>
    have hx : x.isNullish = false := h x (by simp)
    cases hv : validateBundleItem i x with
    | error e =>
      simp [validateBundleItem, getF_ok_of_not_isNullish hx] at hv
    | ok errs =>
      obtain ⟨ys, hys⟩ := ih (i + 1) (fun y hy => h y (by simp [hy]))
      exact ⟨errs :: ys, by simp [mapIdxJSM, hv, hys]⟩

theorem mapIdxJSM_position_ok (xs : List JSVal) (i : ℕ)
    (h : ∀ x ∈ xs, x.isNullish = false) :
    ∃ ys, mapIdxJSM validatePositionItem i xs = .ok ys := by
  induction xs generalizing i with
  | nil => exact ⟨[], rfl⟩
  | cons x rest ih =>
    have hx : x.isNullish = false := h x (by simp)
    cases hv : validatePositionItem i x with
    | error e =>
      simp [validatePositionItem, getF_ok_of_not_isNullish hx] at hv
    | ok errs =>
      obtain ⟨ys, hys⟩ := ih (i + 1) (fun y hy => h y (by simp [hy]))
      exact ⟨errs :: ys, by simp [mapIdxJSM, hv, hys]⟩

/-- Claim C3 (amended): on every object input, `validateYieldScan`,
`validatePortfolioPlan` and `validateBacktest` return a field-level error
list without throwing; `validateExecutionBundle` and
`validatePositionHealth` do so provided the elements of their
`desired_allocations` / `positions` arrays are not `null`/`undefined` (on
a nullish element they throw, see the counterexample).  All validators are
pure functions of their input by construction. -/
theorem validators_return_error_lists (v : JSVal) (hobj : isObjectLike v = true) :
    (validateYieldScan v).isOk = true ∧
    (validatePortfolioPlan v).isOk = true ∧
    (validateBacktest v).isOk = true ∧
    (itemsNonNullish v "desired_allocations" = true →
      (validateExecutionBundle v).isOk = true) ∧
    (itemsNonNullish v "positions" = true →
      (validatePositionHealth v).isOk = true) := by
  have hnn := isNullish_false_of_objectLike hobj
  refine ⟨?_, ?_, ?_, ?_, ?_⟩
  · simp [validateYieldScan, getF_ok_of_not_isNullish hnn, Except.isOk, Except.toBool]
  · simp [validatePortfolioPlan, getF_ok_of_not_isNullish hnn, Except.isOk, Except.toBool]
  · simp [validateBacktest, getF_ok_of_not_isNullish hnn, Except.isOk, Except.toBool]
  · intro hitems
    unfold itemsNonNullish at hitems
    cases hda : fieldOf v "desired_allocations" with
    | arr xs =>
      rw [hda] at hitems
      simp only [List.all_eq_true, Bool.not_eq_true'] at hitems
      obtain ⟨ys, hys⟩ := mapIdxJSM_bundle_ok xs 0 hitems
      simp [validateExecutionBundle, getF_ok_of_not_isNullish hnn, hda, hys,
        Except.isOk, Except.toBool]
    | _ =>
      simp [validateExecutionBundle, getF_ok_of_not_isNullish hnn, hda,
        Except.isOk, Except.toBool]
  · intro hitems
    unfold itemsNonNullish at hitems
    cases hps : fieldOf v "positions" with
    | arr xs =>
      rw [hps] at hitems
      simp only [List.all_eq_true, Bool.not_eq_true'] at hitems
      obtain ⟨ys, hys⟩ := mapIdxJSM_position_ok xs 0 hitems
      simp [validatePositionHealth, getF_ok_of_not_isNullish hnn, hps, hys,
        Except.isOk, Except.toBool]
    | _ =>
      simp [validatePositionHealth, getF_ok_of_not_isNullish hnn, hps,
        Except.isOk, Except.toBool]

/-- A well-typed bundle request except that `desired_allocations` contains
`null`. -/
def bundleNullItemInput : JSVal := .obj [
  ("client_agent_id", .str "agent-9"),
  ("chain", .str "base"),
  ("desired_allocations", .arr [.null])]

/-- Claim C3 (counterexample): `validateExecutionBundle` throws a
`TypeError` (reading `asset_in` of `null`) instead of returning an error
list when an allocation element is `null`; `validatePositionHealth`
behaves the same on `null` positions. -/
theorem validateExecutionBundle_throws_on_null_item :
    validateExecutionBundle bundleNullItemInput =
      .error (.typeError "Cannot read properties of null (reading asset_in)") := by
  simp [validateExecutionBundle, bundleNullItemInput, fieldOf, getF, mapIdxJSM,
    validateBundleItem, ensureString, ensureNumber, ensureArray]

/-- An input object exercising every hypothesis of
`validators_return_error_lists` at once: array fields are present and all
their elements are non-nullish (one of them deliberately mistyped). -/
def validatorsWitnessInput : JSVal := .obj [
  ("client_agent_id", .str "agent-w"),
  ("chain", .num 5),
  ("desired_allocations", .arr [.obj [("asset_in", .str "USDC")], .num 7]),
  ("positions", .arr [.obj []])]

/-- Witness for C3 (amended): at a concrete object input all five
validators return error lists without throwing. -/
theorem validators_return_error_lists_witness :
    isObjectLike validatorsWitnessInput = true ∧
    itemsNonNullish validatorsWitnessInput "desired_allocations" = true ∧
    itemsNonNullish validatorsWitnessInput "positions" = true ∧
    (validateYieldScan validatorsWitnessInput).isOk = true ∧
    (validatePortfolioPlan validatorsWitnessInput).isOk = true ∧
    (validateBacktest validatorsWitnessInput).isOk = true ∧
    (validateExecutionBundle validatorsWitnessInput).isOk = true ∧
    (validatePositionHealth validatorsWitnessInput).isOk = true := by
  have h := validators_return_error_lists validatorsWitnessInput (by decide)
  exact ⟨by decide, by decide, by decide, h.1, h.2.1, h.2.2.1,
    h.2.2.2.1 (by decide), h.2.2.2.2 (by decide)⟩

-- ---------- Claims C5 and C9 ----------

/-- A preferences object with lockups disallowed. -/
def noLockupPrefs : JSVal := .obj [
  ("allow_leverage", .bool false),
  ("allow_lockups", .bool false),
  ("max_positions", .num 3)]

/-- Claim C5 (counterexample): for a balanced plan with lockups
disallowed, the code's normalized weights are `(9/14, 43/154, 6/77)`,
while the spec's redistribution (halve experimental, give the freed half
equally to core and satellite — which already sums to 1, so normalization
is the identity) would give `(51/80, 23/80, 3/40)`; the two differ because
the code adds only `0.25 * halvedExperimental` (an eighth of the original)
to each side. -/
theorem plan_weights_differ_from_spec_redistribution :
    planNormalizedWeights (.str "balanced") noLockupPrefs = (9/14, 43/154, 6/77) ∧
    specLockupAdjustedWeights (.str "balanced") noLockupPrefs = (51/80, 23/80, 3/40) ∧
    (51/80 : ℚ) + 23/80 + 3/40 = 1 ∧
    ((9/14 : ℚ), (43/154 : ℚ), (6/77 : ℚ)) ≠ ((51/80 : ℚ), (23/80 : ℚ), (3/40 : ℚ)) := by
  refine ⟨?_, ?_, by norm_num, ?_⟩
  · simp [planNormalizedWeights, planAdjustedWeights, planBaseWeights, noLockupPrefs,
      fieldOf, truthy, strEq]
    norm_num
  · simp [specLockupAdjustedWeights, planBaseWeights, noLockupPrefs, fieldOf, truthy, strEq]
    norm_num
  · simp only [ne_eq, Prod.mk.injEq, not_and]
    intro h
    norm_num at h

/-- Claim C5 (amended): the three normalized bucket weights always sum to
1, and when lockups are disallowed the pre-normalization weights are the
base triple with the experimental weight halved and one quarter of the
halved weight (an eighth of the original) added to each of core and
satellite. -/
theorem plan_weights_sum_one_and_lockup_adjustment (rt prefs : JSVal) :
    (planNormalizedWeights rt prefs).1 + (planNormalizedWeights rt prefs).2.1 +
      (planNormalizedWeights rt prefs).2.2 = 1 ∧
    ((fieldOf prefs "allow_lockups").truthy = false →
      planAdjustedWeights rt prefs =
        ((planBaseWeights rt).1 + (planBaseWeights rt).2.2 / 8,
         (planBaseWeights rt).2.1 + (planBaseWeights rt).2.2 / 8,
         (planBaseWeights rt).2.2 / 2)) := by
  by_cases h1 : rt.strEq "conservative" <;>
    by_cases h2 : rt.strEq "aggressive" <;>
    by_cases hl : (fieldOf prefs "allow_lockups").truthy <;>
    constructor <;>
    simp [planNormalizedWeights, planAdjustedWeights, planBaseWeights, h1, h2, hl] <;>
    norm_num

/-- Witness for the amended C5 at a concrete aggressive no-lockup input. -/
theorem plan_weights_sum_one_and_lockup_adjustment_witness :
    (planNormalizedWeights (.str "aggressive") noLockupPrefs).1 +
      (planNormalizedWeights (.str "aggressive") noLockupPrefs).2.1 +
      (planNormalizedWeights (.str "aggressive") noLockupPrefs).2.2 = 1 ∧
    (fieldOf noLockupPrefs "allow_lockups").truthy = false ∧
    planAdjustedWeights (.str "aggressive") noLockupPrefs =
      ((planBaseWeights (.str "aggressive")).1 + (planBaseWeights (.str "aggressive")).2.2 / 8,
       (planBaseWeights (.str "aggressive")).2.1 + (planBaseWeights (.str "aggressive")).2.2 / 8,
       (planBaseWeights (.str "aggressive")).2.2 / 2) :=
  ⟨(plan_weights_sum_one_and_lockup_adjustment (.str "aggressive") noLockupPrefs).1,
    by decide,
    (plan_weights_sum_one_and_lockup_adjustment (.str "aggressive") noLockupPrefs).2
      (by decide)⟩

/-- Claim C9: for any two planner inputs with the same `risk_tolerance`
field whose effective preferences carry `allow_lockups = true` and
`allow_lockups = false` respectively, the normalized experimental weight
of the no-lockups run never exceeds that of the lockups-allowed run.
(The weight pipeline of `handlePortfolioPlan` depends on exactly these two
fields, so this covers any two inputs identical except the flag.) -/
theorem no_lockups_never_increases_experimental (i1 i2 : JSVal)
    (hrt : fieldOf i1 "risk_tolerance" = fieldOf i2 "risk_tolerance")
    (h1 : fieldOf (jsOr (fieldOf i1 "preferences") defaultPrefs) "allow_lockups" = .bool true)
    (h2 : fieldOf (jsOr (fieldOf i2 "preferences") defaultPrefs) "allow_lockups" = .bool false) :
    (planNormalizedWeights (jsOr (fieldOf i2 "risk_tolerance") (.str "balanced"))
        (jsOr (fieldOf i2 "preferences") defaultPrefs)).2.2 ≤
      (planNormalizedWeights (jsOr (fieldOf i1 "risk_tolerance") (.str "balanced"))
        (jsOr (fieldOf i1 "preferences") defaultPrefs)).2.2 := by
  rw [hrt]
  set rt := jsOr (fieldOf i2 "risk_tolerance") (.str "balanced") with hrtEq
  by_cases hc : rt.strEq "conservative" <;>
    by_cases ha : rt.strEq "aggressive" <;>
    simp [planNormalizedWeights, planAdjustedWeights, planBaseWeights, hc, ha, h1, h2,
      truthy] <;>
    norm_num

/-- A balanced planner input with lockups allowed. -/
def planLockupsTrueInput : JSVal := .obj [
  ("client_agent_id", .str "agent-5"),
  ("chain", .str "base"),
  ("starting_capital_usd", .num 50000),
  ("risk_tolerance", .str "balanced"),
  ("target_horizon_days", .num 60),
  ("preferences", .obj [("allow_leverage", .bool false), ("allow_lockups", .bool true),
    ("max_positions", .num 4)])]

/-- The same input with lockups disallowed. -/
def planLockupsFalseInput : JSVal := .obj [
  ("client_agent_id", .str "agent-5"),
  ("chain", .str "base"),
  ("starting_capital_usd", .num 50000),
  ("risk_tolerance", .str "balanced"),
  ("target_horizon_days", .num 60),
  ("preferences", .obj [("allow_leverage", .bool false), ("allow_lockups", .bool false),
    ("max_positions", .num 4)])]

/-- Witness for C9 at the concrete pair of inputs. -/
theorem no_lockups_never_increases_experimental_witness :
    fieldOf planLockupsTrueInput "risk_tolerance" =
      fieldOf planLockupsFalseInput "risk_tolerance" ∧
    fieldOf (jsOr (fieldOf planLockupsTrueInput "preferences") defaultPrefs) "allow_lockups" =
      .bool true ∧
    fieldOf (jsOr (fieldOf planLockupsFalseInput "preferences") defaultPrefs) "allow_lockups" =
      .bool false ∧
    (planNormalizedWeights
        (jsOr (fieldOf planLockupsFalseInput "risk_tolerance") (.str "balanced"))
        (jsOr (fieldOf planLockupsFalseInput "preferences") defaultPrefs)).2.2 ≤
      (planNormalizedWeights
        (jsOr (fieldOf planLockupsTrueInput "risk_tolerance") (.str "balanced"))
        (jsOr (fieldOf planLockupsTrueInput "preferences") defaultPrefs)).2.2 :=
  ⟨rfl, rfl, rfl,
    no_lockups_never_increases_experimental planLockupsTrueInput planLockupsFalseInput
      rfl rfl rfl⟩

-- ---------- Claim C6 ----------

/-- Metadata naming the backtest kind with no requirement payload. -/
def backtestKindMetadata : JSVal := .obj [("name", .str "strategy_backtest_report")]

/-- Claim C6 (counterexample): routing recognized metadata for
`strategy_backtest_report` propagates the broken `handleBacktest`'s throw
out of `routeJobDeliverable`, so the router does not return for every
metadata argument. -/
theorem router_throws_on_backtest_kind :
    routeJobDeliverable backtestKindMetadata = .error (.rangeError "Invalid time value") := by
  simp [routeJobDeliverable, backtestKindMetadata, fieldOf, truthy, typeofIsObject, strEq,
    jsOr, handleBacktest, backtestStatsOf, validateBacktest, ensureString, ensureNumber,
    ensureArray, jsDateOf, jsToLowerCase, strLower, strIncludes, charsContain, charsStartWith,
    toNum, mapJSM, equityCurvePoint]

/-- Claim C6 (amended): for missing / falsy / non-object metadata the
router returns the uniform unknown deliverable with the single
`Missing job metadata` error, and for object metadata whose `name` matches
none of the five kinds it returns the unknown deliverable naming the
unmatched kind — these paths never throw.  Recognized kinds delegate to
the corresponding computer, whose exceptions (e.g. the backtest
`ReferenceError`) propagate. -/
theorem router_unknown_path_never_throws (md : JSVal) :
    (¬ md.truthy ∨ ¬ md.typeofIsObject →
      routeJobDeliverable md = .ok (.unknown missingMetadataDeliverable)) ∧
    (md.truthy → md.typeofIsObject → recognizedJobName (fieldOf md "name") = false →
      routeJobDeliverable md = .ok (.unknown (unknownKindDeliverable (fieldOf md "name")))) := by
  constructor
  · intro h
    rw [routeJobDeliverable, if_pos h]
  · intro ht hobj hrec
    simp only [recognizedJobName, Bool.or_eq_false_iff] at hrec
    obtain ⟨⟨⟨⟨n1, n2⟩, n3⟩, n4⟩, n5⟩ := hrec
    simp [routeJobDeliverable, ht, hobj, n1, n2, n3, n4, n5]

/-- Object metadata with an unrecognized kind name. -/
def mysteryMetadata : JSVal := .obj [("name", .str "mystery_job")]

/-- Witness for the amended C6 at an unrecognized kind and at `null`
metadata. -/
theorem router_unknown_path_never_throws_witness :
    mysteryMetadata.truthy = true ∧
    mysteryMetadata.typeofIsObject = true ∧
    recognizedJobName (fieldOf mysteryMetadata "name") = false ∧
    routeJobDeliverable mysteryMetadata =
      .ok (.unknown (unknownKindDeliverable (.str "mystery_job"))) ∧
    routeJobDeliverable .null = .ok (.unknown missingMetadataDeliverable) :=
  ⟨rfl, rfl, by decide,
    (router_unknown_path_never_throws mysteryMetadata).2 rfl rfl (by decide),
    (router_unknown_path_never_throws .null).1 (by decide)⟩

-- ---------- Claim C8 ----------

/-- The delivery branch always routes exactly the metadata produced by the
three-step resolution. -/
theorem onDeliveryPhase_metadata (cache : MetaCache) (jobId : String) (memo : PhaseMemo)
    (parseJson : String → Option JSVal) (dOk fOk : Bool) (errMsg : String) :
    (onDeliveryPhase cache jobId memo parseJson dOk fOk errMsg).metadataResolved =
      resolveMetadata cache jobId memo parseJson := by
  unfold onDeliveryPhase
  cases hroute : routeJobDeliverable (resolveMetadata cache jobId memo parseJson) with
  | error e => simp [hroute]
  | ok d => by_cases hd : dOk <;> simp [hroute, hd]

/-- Resolution step (a): a truthy cached entry wins. -/
theorem resolveMetadata_cached {cache : MetaCache} {jobId : String} {memo : PhaseMemo}
    {parseJson : String → Option JSVal} (h : (cacheGet cache jobId).truthy = true) :
    resolveMetadata cache jobId memo parseJson = cacheGet cache jobId := by
  unfold resolveMetadata
  simp [h]

/-- Resolution step (b): with no truthy cached entry, truthy structured
content on the event is used. -/
theorem resolveMetadata_structured {cache : MetaCache} {jobId : String} {memo : PhaseMemo}
    {parseJson : String → Option JSVal} (h1 : (cacheGet cache jobId).truthy = false)
    (h2 : memo.structuredContent.truthy = true) :
    resolveMetadata cache jobId memo parseJson = memo.structuredContent := by
  unfold resolveMetadata
  simp [h1, h2]

/-- Resolution step (c): with neither of the previous, a serialized
content string that parses to a truthy value with a truthy `name` is
used. -/
theorem resolveMetadata_parsed {cache : MetaCache} {jobId : String} {memo : PhaseMemo}
    {parseJson : String → Option JSVal} {s : String} {p : JSVal}
    (h1 : (cacheGet cache jobId).truthy = false)
    (h2 : memo.structuredContent.truthy = false)
    (hc : memo.content = .str s) (hp : parseJson s = some p)
    (ht : p.truthy = true) (hn : (fieldOf p "name").truthy = true) :
    resolveMetadata cache jobId memo parseJson = p := by
  unfold resolveMetadata
  simp [h1, h2, hc, hp, ht, hn]

/-- Claim C8 (amended): on a `PENDING` memo with `nextPhase = 3` the
handler runs the delivery branch on the three-step-resolved metadata
(`resolveMetadata`, see the step lemmas above); when the router returns a
deliverable it is submitted — on success the cache entry is erased, on
failure the cache is kept and exactly one fallback submission of the
minimal error deliverable is attempted, a failing fallback being logged
only; when the router itself throws (e.g. the backtest kind), nothing is
submitted and the cache entry is kept, contrary to the claim's
unconditional "submits the deliverable". -/
theorem delivery_phase_behaviour (cache : MetaCache) (jobId : String) (memo : PhaseMemo)
    (parseJson : String → Option JSVal) (respondOk deliverOk fallbackOk : Bool)
    (errMsg : String)
    (hstatus : memo.status = .str "PENDING") (hphase : memo.nextPhase = .num 3) :
    onNewTask cache jobId (some memo) parseJson respondOk deliverOk fallbackOk errMsg =
      .delivery (onDeliveryPhase cache jobId memo parseJson deliverOk fallbackOk errMsg) ∧
    (onDeliveryPhase cache jobId memo parseJson deliverOk fallbackOk errMsg).metadataResolved =
      resolveMetadata cache jobId memo parseJson ∧
    (∀ d, routeJobDeliverable (resolveMetadata cache jobId memo parseJson) = .ok d →
      (deliverOk = true →
        onDeliveryPhase cache jobId memo parseJson deliverOk fallbackOk errMsg =
          ⟨resolveMetadata cache jobId memo parseJson, [d], cacheErase cache jobId,
            none, false⟩) ∧
      (deliverOk = false →
        onDeliveryPhase cache jobId memo parseJson deliverOk fallbackOk errMsg =
          ⟨resolveMetadata cache jobId memo parseJson, [d, fallbackDeliverable errMsg],
            cache, none, !fallbackOk⟩)) ∧
    (∀ e, routeJobDeliverable (resolveMetadata cache jobId memo parseJson) = .error e →
      onDeliveryPhase cache jobId memo parseJson deliverOk fallbackOk errMsg =
        ⟨resolveMetadata cache jobId memo parseJson, [], cache, some e, false⟩) := by
  refine ⟨?_, onDeliveryPhase_metadata _ _ _ _ _ _ _, ?_, ?_⟩
  · simp [onNewTask, hstatus, hphase, strEq, numEq]
  · intro d hd
    constructor
    · intro hdel
      simp [onDeliveryPhase, hd, hdel]
    · intro hdel
      simp [onDeliveryPhase, hd, hdel]
  · intro e he
    simp [onDeliveryPhase, he]

/-- A cache holding backtest metadata for `job-1`. -/
def backtestCachedEntry : MetaCache := [("job-1", backtestKindMetadata)]

/-- A pending delivery-phase memo carrying no content of its own. -/
def pendingDeliveryMemo : PhaseMemo := ⟨.str "PENDING", .num 3, .undefined, .undefined⟩

/-- Claim C8 (counterexample): with cached backtest metadata the router
throws, so the delivery branch submits nothing, keeps the cache entry and
propagates the error — the claim's unconditional submission fails. -/
theorem delivery_skips_submission_when_router_throws :
    onDeliveryPhase backtestCachedEntry "job-1" pendingDeliveryMemo (fun _ => none)
        true true "boom" =
      ⟨backtestKindMetadata, [], backtestCachedEntry,
        some (.rangeError "Invalid time value"), false⟩ := by
  simp [onDeliveryPhase, resolveMetadata, cacheGet, backtestCachedEntry, pendingDeliveryMemo,
    truthy, backtestKindMetadata, routeJobDeliverable, fieldOf, typeofIsObject, strEq, jsOr,
    handleBacktest, backtestStatsOf, validateBacktest, ensureString, ensureNumber, ensureArray,
    jsDateOf, jsToLowerCase, strLower, strIncludes, charsContain, charsStartWith, toNum,
    mapJSM, equityCurvePoint]

/-- Structured content naming an unrecognized kind. -/
def unlistedKindMeta : JSVal := .obj [("name", .str "unlisted_job_kind")]

/-- A delivery memo resolving through the structured-content step. -/
def deliveryWitnessMemo : PhaseMemo := ⟨.str "PENDING", .num 3, unlistedKindMeta, .undefined⟩

/-- Witness for the amended C8: a failed first submission is followed by
exactly one fallback submission and the cache is kept. -/
theorem delivery_phase_behaviour_witness :
    deliveryWitnessMemo.status = .str "PENDING" ∧
    deliveryWitnessMemo.nextPhase = .num 3 ∧
    onNewTask [] "job-9" (some deliveryWitnessMemo) (fun _ => none) true false true "boom" =
      .delivery (onDeliveryPhase [] "job-9" deliveryWitnessMemo (fun _ => none)
        false true "boom") ∧
    onDeliveryPhase [] "job-9" deliveryWitnessMemo (fun _ => none) false true "boom" =
      ⟨unlistedKindMeta,
        [.unknown (unknownKindDeliverable (.str "unlisted_job_kind")),
          fallbackDeliverable "boom"],
        [], none, false⟩ := by
  have h := delivery_phase_behaviour [] "job-9" deliveryWitnessMemo (fun _ => none)
    true false true "boom" rfl rfl
  refine ⟨rfl, rfl, h.1, ?_⟩
  have hres : resolveMetadata [] "job-9" deliveryWitnessMemo (fun _ => none) =
      unlistedKindMeta := rfl
  have hroute : routeJobDeliverable
      (resolveMetadata [] "job-9" deliveryWitnessMemo (fun _ => none)) =
      .ok (.unknown (unknownKindDeliverable (.str "unlisted_job_kind"))) := by
    rw [hres]
    rfl
  have h2 := (h.2.2.1 _ hroute).2 rfl
  rw [hres] at h2
  exact h2
